import Mathlib

/-!
Verification development for the wallbox-mqtt-bridge status reconciliation
and self-healing controller.

The definitions below are a shallow embedding of the Go sources:
* the status tables and classifiers of `app/wallbox` (status code maps,
  session-state classifier, OCPP problem-state set),
* the three-source OCPP status resolver (`OCPPStatusCode` with its
  journal / session-event / raw-telemetry slots and 10-minute staleness
  window),
* the pilot-state predicates (`CableConnected`, `ControlPilotCode`,
  `IsChargingPilot`),
* the per-tick mismatch detector, healing controller and pilot-error
  safety net of `RunBridge`, together with the command fall-back logic of
  `restartCriticalServices`.

Timestamps are modelled as `Int` seconds (Go `time.Time`; the zero value
is modelled as `Option.none`).  Status codes are `Int`.  External command
results (`systemctl stop/start/restart`, the reboot flow) are inputs of
each tick.
-/

/-- Staleness window of the cached OCPP status slots: `10 * time.Minute`,
in seconds. -/
def ocppStatusCacheTTL : Int := 600

/-! ## Status tables (wallbox status file) -/

/-- `telemetryStatusDescriptions` map with its `"Unknown"` default
(`describeTelemetryStatus`). -/
def describeTelemetryStatus (code : Int) : String :=
  if code = 0 then "Disconnected"
  else if code = 14 then "Error"
  else if code = 15 then "Error"
  else if code = 161 then "Ready"
  else if code = 162 then "Ready"
  else if code = 163 then "Disconnected"
  else if code = 164 then "Waiting"
  else if code = 165 then "Locked"
  else if code = 166 then "Updating"
  else if code = 177 then "Scheduled"
  else if code = 178 then "Paused"
  else if code = 179 then "Scheduled"
  else if code = 180 then "Waiting"
  else if code = 181 then "Waiting"
  else if code = 182 then "Paused"
  else if code = 183 then "Waiting"
  else if code = 184 then "Waiting"
  else if code = 185 then "Waiting"
  else if code = 186 then "Waiting"
  else if code = 187 then "Waiting"
  else if code = 188 then "Waiting"
  else if code = 189 then "Waiting"
  else if code = 193 then "Charging"
  else if code = 194 then "Charging"
  else if code = 195 then "Charging"
  else if code = 196 then "Discharging"
  else if code = 209 then "Locked"
  else if code = 210 then "Locked"
  else "Unknown"

/-- `telemetryControlPilotConnected` lookup: `some b` when the code is in
the map, `none` otherwise. -/
def telemetryControlPilotConnected (code : Int) : Option Bool :=
  if code = 161 then some false
  else if code = 162 then some false
  else if code = 177 then some true
  else if code = 178 then some true
  else if code = 193 then some true
  else if code = 194 then some true
  else if code = 195 then some true
  else none

/-- `isTelemetryCableConnected`: map lookup first, otherwise derived from
the telemetry status description. -/
def isTelemetryCableConnected (code : Int) : Bool :=
  match telemetryControlPilotConnected code with
  | some connected => connected
  | none =>
    let desc := describeTelemetryStatus code
    desc ≠ "Disconnected" ∧ desc ≠ "Ready" ∧ desc ≠ "Unknown"

/-- `telemetryChargingStates` membership (`isTelemetryCharging`): Go map
lookup with `false` default. -/
def isTelemetryCharging (code : Int) : Bool :=
  code = 193 ∨ code = 194 ∨ code = 195

/-- `ocppStatusDescriptions` with the `"Unknown"` default
(`describeOCPPStatus`). -/
def describeOCPPStatus (code : Int) : String :=
  if code = 1 then "Available"
  else if code = 2 then "Preparing"
  else if code = 3 then "Charging"
  else if code = 4 then "SuspendedEVSE"
  else if code = 5 then "SuspendedEV"
  else if code = 6 then "Finishing"
  else if code = 7 then "Reserved"
  else if code = 8 then "Unavailable"
  else if code = 9 then "Faulted"
  else "Unknown"

/-- `ocppStatusStringToCode` lookup (`ocppStatusCodeFromString`). -/
def ocppStatusCodeFromString (status : String) : Option Int :=
  if status = "Available" then some 1
  else if status = "Preparing" then some 2
  else if status = "Charging" then some 3
  else if status = "SuspendedEVSE" then some 4
  else if status = "SuspendedEV" then some 5
  else if status = "Finishing" then some 6
  else if status = "Reserved" then some 7
  else if status = "Unavailable" then some 8
  else if status = "Faulted" then some 9
  else none

/-- `LookupOCPPStatusCode` delegates to `ocppStatusCodeFromString`. -/
def LookupOCPPStatusCode (status : String) : Option Int :=
  ocppStatusCodeFromString status

/-- `ocppProblemStates` membership: the Go map `{1, 6, 8, 9} → true` with
`false` default. -/
def ocppProblemStates (code : Int) : Bool :=
  code = 1 ∨ code = 6 ∨ code = 8 ∨ code = 9

/-- `ocppStatusIndicatesDisconnect` is the `ocppProblemStates` lookup. -/
def ocppStatusIndicatesDisconnect (code : Int) : Bool :=
  ocppProblemStates code

/-! ## Session-state classifier (`normalizeSessionState`,
`ocppCodeFromSessionState`) -/

/-- ASCII whitespace predicate used by the trim step of
`strings.TrimSpace`. -/
def isSpaceChar (c : Char) : Bool :=
  c = ' ' ∨ c = '\t' ∨ c = '\n' ∨ c = '\r'

/-- Drop leading and trailing whitespace characters
(`strings.TrimSpace`). -/
def trimCharList (l : List Char) : List Char :=
  ((l.dropWhile isSpaceChar).reverse.dropWhile isSpaceChar).reverse

/-- `strings.ToLower` + `strings.TrimSpace` + removal of every `' '` and
`'_'` (`strings.ReplaceAll` with the empty replacement), character by
character. -/
def normalizeSessionState (state : String) : String :=
  let trimmed := trimCharList state.toList
  let lowered := trimmed.map Char.toLower
  String.mk (lowered.filter (fun c => c ≠ ' ' ∧ c ≠ '_'))

/-- List-level prefix test used to embed `strings.HasPrefix`. -/
def isPrefixCharList : List Char → List Char → Bool
  | [], _ => true
  | _ :: _, [] => false
  | a :: as, b :: bs => a = b ∧ isPrefixCharList as bs

/-- `strings.HasPrefix s p`. -/
def hasPrefixStr (s p : String) : Bool :=
  isPrefixCharList p.toList s.toList

/-- `ocppCodeFromSessionState`: exact matches of the Go `switch` first,
then the `strings.HasPrefix` rules, in source order.  `none` models the
Go `(0, false)` "no observation" result. -/
def ocppCodeFromSessionState (state : String) : Option Int :=
  let n := normalizeSessionState state
  if n = "ready" then some 1
  else if n = "finish" ∨ n = "lock" ∨ n = "waitunlock" then some 6
  else if n = "reserved" then some 7
  else if n = "updating" ∨ n = "unavailable" ∨ n = "psunconfig" then some 8
  else if n = "error" ∨ n = "unviable" then some 9
  else if hasPrefixStr n "connected" then some 5
  else if hasPrefixStr n "waiting" ∨ hasPrefixStr n "mid" ∨ hasPrefixStr n "queue" then some 2
  else if hasPrefixStr n "charging" ∨ hasPrefixStr n "discharging" then some 3
  else if hasPrefixStr n "paused" ∨ hasPrefixStr n "scheduled" then some 5
  else none

/-! ## OCPP status resolver (`Wallbox` cached slots, `OCPPStatusCode`) -/

/-- The OCPP status slots of the `Wallbox` aggregate: the journal slot,
the session-event slot (`telemetryOCPPStatus` in the source, fed by
`ProcessSessionUpdateEvent`), and the raw telemetry status field
`Data.RedisTelemetry.OCPPStatus`. -/
structure OCPPSlots where
  journalCode : Int
  journalUpdated : Int
  telemetryCode : Int
  telemetryUpdated : Int
  rawOCPPStatus : Int
  deriving DecidableEq, Repr

/-- `New()` initialisation: both cached slots hold the `-1` sentinel,
timestamps are the zero value, the raw telemetry field is `0`. -/
def OCPPSlots.init : OCPPSlots :=
  { journalCode := -1, journalUpdated := 0,
    telemetryCode := -1, telemetryUpdated := 0, rawOCPPStatus := 0 }

/-- `SetJournalOCPPStatus`. -/
def SetJournalOCPPStatus (now code : Int) (st : OCPPSlots) : OCPPSlots :=
  { st with journalCode := code, journalUpdated := now }

/-- `SetTelemetryOCPPStatus` (the session-event slot setter). -/
def SetTelemetryOCPPStatus (now code : Int) (st : OCPPSlots) : OCPPSlots :=
  { st with telemetryCode := code, telemetryUpdated := now }

/-- `updateTelemetryField` for the `SENSOR_OCPP_STATUS` sensor: writes the
raw telemetry status field. -/
def setRawOCPPStatus (value : Int) (st : OCPPSlots) : OCPPSlots :=
  { st with rawOCPPStatus := value }

/-- `getJournalOCPPStatus`: the cached journal code, provided it is
non-negative and younger than the 10-minute window. -/
def getJournalOCPPStatus (now : Int) (st : OCPPSlots) : Option Int :=
  if 0 ≤ st.journalCode ∧ now - st.journalUpdated < ocppStatusCacheTTL then
    some st.journalCode
  else none

/-- `getTelemetryOCPPStatus`: the cached session-event code, provided it
is non-negative and younger than the 10-minute window. -/
def getTelemetryOCPPStatus (now : Int) (st : OCPPSlots) : Option Int :=
  if 0 ≤ st.telemetryCode ∧ now - st.telemetryUpdated < ocppStatusCacheTTL then
    some st.telemetryCode
  else none

/-- `OCPPStatusCode`: journal slot first, then session-event slot, then
the raw telemetry status field unconditionally. -/
def OCPPStatusCode (now : Int) (st : OCPPSlots) : Int :=
  match getJournalOCPPStatus now st with
  | some code => code
  | none =>
    match getTelemetryOCPPStatus now st with
    | some code => code
    | none => st.rawOCPPStatus

/-! ## Pilot-state reader (`CableConnected`, `ControlPilotCode`,
`IsChargingPilot`) -/

/-- Per-tick observable snapshot of the wallbox data layer used by the
bridge loop: the `HasTelemetry` flag, the telemetry control-pilot value
(`Data.RedisTelemetry.ControlPilotStatus`), the legacy control pilot
(`Data.RedisState.ControlPilot`), the legacy charger status
(`Data.RedisM2W.ChargerStatus`), and the cached OCPP status slots. -/
structure WallboxState where
  hasTelemetry : Bool
  telControlPilot : Int
  legacyControlPilot : Int
  legacyChargerStatus : Int
  slots : OCPPSlots
  deriving DecidableEq, Repr

/-- `CableConnected`: telemetry control-pilot based on newer firmware,
legacy charger-status fallback otherwise (`0`/`6` mean disconnected). -/
def CableConnected (w : WallboxState) : Int :=
  if w.hasTelemetry then
    if w.telControlPilot ≠ 0 ∧ isTelemetryCableConnected w.telControlPilot then 1 else 0
  else
    if w.legacyChargerStatus = 0 ∨ w.legacyChargerStatus = 6 then 0 else 1

/-- `ControlPilotCode`: the telemetry pilot value when telemetry has been
seen and is non-zero, the legacy Redis pilot value otherwise. -/
def ControlPilotCode (w : WallboxState) : Int :=
  if w.hasTelemetry ∧ w.telControlPilot ≠ 0 then w.telControlPilot
  else w.legacyControlPilot

/-- `IsChargingPilot`. -/
def IsChargingPilot (w : WallboxState) : Bool :=
  isTelemetryCharging (ControlPilotCode w)

/-- `RunBridge` pilot-connected input of the mismatch detector:
`w.HasTelemetry && (w.CableConnected() == 1 || w.IsChargingPilot())`. -/
def pilotConnected (w : WallboxState) : Bool :=
  w.hasTelemetry ∧ (CableConnected w = 1 ∨ IsChargingPilot w)

/-- Modelled from the spec's words only (for comparison with
`pilotConnected`): "cable physically connected AND (telemetry reports a
charging pilot state OR the legacy fallback agrees)". -/
def specWordsPilotConnected (w : WallboxState) : Bool :=
  CableConnected w = 1 ∧
    (isTelemetryCharging w.telControlPilot ∨ isTelemetryCharging w.legacyControlPilot)

/-! ## Bridge configuration (`LoadConfig` + `RunBridge` defaulting) -/

/-- The self-healing related settings consumed by `RunBridge`. -/
structure Settings where
  autoRestartOCPP : Bool
  ocppMismatchSeconds : Int
  ocppRestartCooldown : Int
  ocppMaxRestarts : Int
  ocppFullReboot : Bool
  pilotErrorReboot : Bool
  pilotErrorSeconds : Int
  deriving DecidableEq, Repr

/-- The defaulting block at the top of `RunBridge`:
mismatch seconds `0 → 60`, restart cooldown `0 → 600`,
max restarts `≤ 0 → 3`, pilot-error seconds `0 → 300`. -/
def applyDefaults (c : Settings) : Settings :=
  { c with
    ocppMismatchSeconds := if c.ocppMismatchSeconds = 0 then 60 else c.ocppMismatchSeconds,
    ocppRestartCooldown := if c.ocppRestartCooldown = 0 then 600 else c.ocppRestartCooldown,
    ocppMaxRestarts := if c.ocppMaxRestarts ≤ 0 then 3 else c.ocppMaxRestarts,
    pilotErrorSeconds := if c.pilotErrorSeconds = 0 then 300 else c.pilotErrorSeconds }

/-! ## Remediation commands (`restartCriticalServices`, `rebootSystem`) -/

/-- Success/failure of the external commands a heal attempt may run:
`systemctl stop`, `systemctl start`, `systemctl restart` of
`ocppwallbox.service`, and the reboot flow (`reboot.sh` falling back to
`systemctl reboot`, collapsed to one outcome). -/
structure CmdOutcomes where
  stopOk : Bool
  startOk : Bool
  restartOk : Bool
  rebootOk : Bool
  deriving DecidableEq, Repr

/-- `restartCriticalServices` result `(action, detail, err)`: graceful
stop+start first, direct restart as fallback, reboot flow as the final
safeguard; only a failed reboot yields a non-nil error. -/
def restartCriticalServices (o : CmdOutcomes) : String × String × Option String :=
  if o.stopOk ∧ o.startOk then
    ("stop_start", "ocppwallbox.service stopped+started", none)
  else if o.restartOk then
    ("restart", "ocppwallbox.service restarted", none)
  else if o.rebootOk then
    ("reboot", "reboot issued after restart failure", none)
  else
    ("reboot", "reboot failed after restart error", some "reboot failed after restart error")

/-! ## Bridge tick loop (`RunBridge` ticker body) -/

/-- The mutable variables of the `RunBridge` closure that the healing
logic reads and writes.  Go `time.Time` zero values are `none`. -/
structure BridgeState where
  mismatchActive : Bool
  mismatchStart : Option Int
  restartCount : Int
  lastRestart : Option Int
  lastFullReboot : Option Int
  pilotErrorStart : Option Int
  lastPilotErrorReboot : Option Int
  lastHealAction : String
  lastHealDetail : String
  lastHealError : String
  lastHealAt : Option Int
  lastRestartAt : Option Int
  deriving DecidableEq, Repr

/-- Initial values of the `RunBridge` closure variables. -/
def BridgeState.init : BridgeState :=
  { mismatchActive := false, mismatchStart := none, restartCount := 0,
    lastRestart := none, lastFullReboot := none, pilotErrorStart := none,
    lastPilotErrorReboot := none, lastHealAction := "idle",
    lastHealDetail := "", lastHealError := "", lastHealAt := none,
    lastRestartAt := none }

/-- Inputs of one tick: the current time, the wallbox snapshot after
`RefreshData`, and the outcomes of any external commands run this tick. -/
structure TickInput where
  now : Int
  wb : WallboxState
  cmd : CmdOutcomes
  deriving DecidableEq, Repr

/-- Externally visible effects of one tick. -/
structure TickEffects where
  restartAttempted : Bool
  attemptAction : String
  attemptErr : Option String
  escalationReboot : Bool
  netReboot : Bool
  deriving DecidableEq, Repr

/-- Result of the healing-controller block: updated state, whether a
restart attempt ran, its error, whether the full-reboot escalation
fired, and whether the Go `continue` cut the tick short. -/
structure HealOutcome where
  st : BridgeState
  attempted : Bool
  action : String
  attemptErr : Option String
  escalReboot : Bool
  skipRest : Bool
  deriving DecidableEq, Repr

/-- Mismatch detector block (`RunBridge` lines around the
`pilotConnected && ocppIndicatesDisconnect` conjunction): stamps
`mismatchStart` and zeroes `ocppRestartCount` when the mismatch first
appears, fully clears the window the moment the conjunction fails. -/
def detectorPhase (now : Int) (pc disc : Bool) (s : BridgeState) : BridgeState :=
  if pc ∧ disc then
    if s.mismatchStart = none then
      { s with mismatchActive := true, mismatchStart := some now, restartCount := 0 }
    else
      { s with mismatchActive := true }
  else
    { s with mismatchActive := false, mismatchStart := none, restartCount := 0 }

/-- Healing-controller block: threshold and cooldown gates, the bounded
restart attempts, the error `continue`, and the full-reboot
escalation. -/
def healPhase (c : Settings) (now : Int) (cmd : CmdOutcomes) (s1 : BridgeState) : HealOutcome :=
  if c.autoRestartOCPP ∧ s1.mismatchActive ∧ s1.mismatchStart ≠ none then
    if c.ocppMismatchSeconds ≤ now - (s1.mismatchStart.getD 0) ∧
        (s1.lastRestart = none ∨ c.ocppRestartCooldown ≤ now - (s1.lastRestart.getD 0)) then
      if c.ocppMaxRestarts = 0 ∨ s1.restartCount < c.ocppMaxRestarts then
        let r := restartCriticalServices cmd
        let s2 := { s1 with lastHealAction := r.1, lastHealDetail := r.2.1,
                            lastHealAt := some now }
        match r.2.2 with
        | some e =>
          { st := { s2 with lastHealError := r.2.1 },
            attempted := true, action := r.1, attemptErr := some e,
            escalReboot := false, skipRest := true }
        | none =>
          { st := { s2 with
                    lastHealError := if r.1 = "reboot" then r.2.1 else "",
                    restartCount := s1.restartCount + 1,
                    lastRestart := some now,
                    mismatchStart := some now,
                    lastRestartAt := some now },
            attempted := true, action := r.1, attemptErr := none,
            escalReboot := false, skipRest := false }
      else if c.ocppFullReboot then
        if s1.lastFullReboot = none ∨
            c.ocppRestartCooldown ≤ now - (s1.lastFullReboot.getD 0) then
          { st := { s1 with lastFullReboot := some now },
            attempted := false, action := "", attemptErr := none,
            escalReboot := true, skipRest := false }
        else
          { st := s1, attempted := false, action := "", attemptErr := none,
            escalReboot := false, skipRest := false }
      else
        { st := s1, attempted := false, action := "", attemptErr := none,
          escalReboot := false, skipRest := false }
    else
      { st := s1, attempted := false, action := "", attemptErr := none,
        escalReboot := false, skipRest := false }
  else
    { st := s1, attempted := false, action := "", attemptErr := none,
      escalReboot := false, skipRest := false }

/-- Pilot-error safety net block: opens a window on fault code 14, fires
a reboot after the sustained duration subject only to its own last-reboot
throttle, closes the window on firing, and resets it when the fault is no
longer observed. -/
def pilotNetPhase (c : Settings) (now pilotCode : Int) (s : BridgeState) :
    BridgeState × Bool :=
  if c.pilotErrorReboot then
    if pilotCode = 14 then
      let ps := if s.pilotErrorStart = none then some now else s.pilotErrorStart
      if c.pilotErrorSeconds ≤ now - (ps.getD 0) then
        if s.lastPilotErrorReboot = none ∨
            c.pilotErrorSeconds ≤ now - (s.lastPilotErrorReboot.getD 0) then
          ({ s with pilotErrorStart := none, lastPilotErrorReboot := some now }, true)
        else
          ({ s with pilotErrorStart := ps }, false)
      else
        ({ s with pilotErrorStart := ps }, false)
    else
      ({ s with pilotErrorStart := none }, false)
  else
    (s, false)

/-- One full tick of the `RunBridge` loop (detector, healing controller,
pilot-error safety net), including the `continue` that skips the safety
net when a restart attempt returns an error. -/
def tick (c : Settings) (inp : TickInput) (s : BridgeState) :
    BridgeState × TickEffects :=
  let pc := pilotConnected inp.wb
  let code := OCPPStatusCode inp.now inp.wb.slots
  let disc := ocppStatusIndicatesDisconnect code
  let s1 := detectorPhase inp.now pc disc s
  let h := healPhase c inp.now inp.cmd s1
  if h.skipRest then
    (h.st, { restartAttempted := h.attempted, attemptAction := h.action,
             attemptErr := h.attemptErr, escalationReboot := false,
             netReboot := false })
  else
    let net := pilotNetPhase c inp.now (ControlPilotCode inp.wb) h.st
    (net.1, { restartAttempted := h.attempted, attemptAction := h.action,
              attemptErr := h.attemptErr, escalationReboot := h.escalReboot,
              netReboot := net.2 })

/-- Run a list of ticks from a state. -/
def runTicks (c : Settings) (s : BridgeState) : List TickInput → BridgeState
  | [] => s
  | i :: rest => runTicks c (tick c i s).1 rest

/-- Times at which the full-reboot escalation fires along a trace. -/
def escalationRebootTimes (c : Settings) (s : BridgeState) :
    List TickInput → List Int
  | [] => []
  | i :: rest =>
    let r := tick c i s
    (if r.2.escalationReboot then [i.now] else []) ++
      escalationRebootTimes c r.1 rest

/-! Sanity checks of the classifier on concrete labels. -/

example : ocppCodeFromSessionState "Connected 5" = some 5 := by decide
example : ocppCodeFromSessionState "Finish" = some 6 := by decide
example : ocppCodeFromSessionState "bogus-state" = none := by decide
example : ocppCodeFromSessionState "PS Unconfig" = some 8 := by decide
example : ocppCodeFromSessionState "Wait Unlock" = some 6 := by decide
example : ocppCodeFromSessionState "unconfigured" = none := by decide
example : OCPPStatusCode 0 OCPPSlots.init = 0 := by decide

/-- State after one tick. -/
def tickState (c : Settings) (i : TickInput) (s : BridgeState) : BridgeState :=
  (tick c i s).1

/-- Effects of one tick. -/
def tickFx (c : Settings) (i : TickInput) (s : BridgeState) : TickEffects :=
  (tick c i s).2

/-- The detector conjunction of a tick:
pilot-connected AND resolved-OCPP-status-indicates-disconnect. -/
def mismatchConj (i : TickInput) : Bool :=
  pilotConnected i.wb &&
    ocppStatusIndicatesDisconnect (OCPPStatusCode i.now i.wb.slots)

/-- The normalized labels handled by the exact-match arm of
`ocppCodeFromSessionState`. -/
def exactSessionLabel (n : String) : Bool :=
  n = "ready" ∨ n = "finish" ∨ n = "lock" ∨ n = "waitunlock" ∨
    n = "reserved" ∨ n = "updating" ∨ n = "unavailable" ∨
    n = "psunconfig" ∨ n = "error" ∨ n = "unviable"

/-! ## Concrete fixtures used by counterexamples and witnesses -/

/-- Settings with healing enabled and every numeric option left unset,
after `RunBridge` defaulting: threshold 60, cooldown 600, 3 restarts. -/
def cAuto : Settings := applyDefaults ⟨true, 0, 0, 0, false, false, 0⟩

/-- Healing plus pilot-error-reboot enabled, defaults otherwise. -/
def cPilot : Settings := applyDefaults ⟨true, 0, 0, 0, false, true, 0⟩

/-- Healing, escalation and defaults. -/
def cEscal : Settings := applyDefaults ⟨true, 0, 0, 0, true, false, 0⟩

/-- Settings with `ocpp_max_restarts` explicitly configured to `0` and
every other numeric option configured explicitly (threshold 60, cooldown
600, pilot-error 300), after `RunBridge` defaulting. -/
def cZeroMax : Settings := applyDefaults ⟨true, 60, 600, 0, false, false, 300⟩

/-- Snapshot with telemetry seen, the given telemetry control-pilot
value, and a raw telemetry OCPP status of 1 (Available) with both cached
slots never observed: the resolved status indicates a disconnect. -/
def wbDisc (cp : Int) : WallboxState :=
  ⟨true, cp, 0, 0, { OCPPSlots.init with rawOCPPStatus := 1 }⟩

/-- All external commands succeed. -/
def cmdAllOk : CmdOutcomes := ⟨true, true, true, true⟩

/-- All external commands fail (stop, start, restart and reboot). -/
def cmdAllFail : CmdOutcomes := ⟨false, false, false, false⟩

/-- Mismatch run, tick 1: mismatch first detected at t = 1. -/
def c3s1 : BridgeState := tickState cAuto ⟨1, wbDisc 177, cmdAllOk⟩ BridgeState.init

/-- Mismatch run, tick 2: successful restart attempt at t = 61. -/
def c3s2 : BridgeState := tickState cAuto ⟨61, wbDisc 177, cmdAllOk⟩ c3s1

/-! ## Helper lemmas -/

/-- Case analysis of the resolver: journal slot, else session-event slot,
else raw telemetry field. -/
lemma resolverCases (now : Int) (st : OCPPSlots) :
    (0 ≤ st.journalCode ∧ now - st.journalUpdated < ocppStatusCacheTTL ∧
      OCPPStatusCode now st = st.journalCode) ∨
    (¬(0 ≤ st.journalCode ∧ now - st.journalUpdated < ocppStatusCacheTTL) ∧
      (0 ≤ st.telemetryCode ∧ now - st.telemetryUpdated < ocppStatusCacheTTL) ∧
      OCPPStatusCode now st = st.telemetryCode) ∨
    (¬(0 ≤ st.journalCode ∧ now - st.journalUpdated < ocppStatusCacheTTL) ∧
      ¬(0 ≤ st.telemetryCode ∧ now - st.telemetryUpdated < ocppStatusCacheTTL) ∧
      OCPPStatusCode now st = st.rawOCPPStatus) := by
  unfold OCPPStatusCode getJournalOCPPStatus getTelemetryOCPPStatus
  by_cases hj : 0 ≤ st.journalCode ∧ now - st.journalUpdated < ocppStatusCacheTTL
  · exact Or.inl ⟨hj.1, hj.2, by rw [if_pos hj]⟩
  · by_cases ht : 0 ≤ st.telemetryCode ∧ now - st.telemetryUpdated < ocppStatusCacheTTL
    · exact Or.inr (Or.inl ⟨hj, ht, by rw [if_neg hj, if_pos ht]⟩)
    · exact Or.inr (Or.inr ⟨hj, ht, by rw [if_neg hj, if_neg ht]⟩)

/-- Detector block when the conjunction fails: full reset. -/
lemma detectorPhase_clear {pc disc : Bool} (now : Int) (s : BridgeState)
    (h : ¬(pc = true ∧ disc = true)) :
    detectorPhase now pc disc s =
      { s with mismatchActive := false, mismatchStart := none, restartCount := 0 } := by
  unfold detectorPhase
  rw [if_neg h]

/-- Detector block on the first tick of a run: stamp and reset count. -/
lemma detectorPhase_stamp {pc disc : Bool} (now : Int) (s : BridgeState)
    (h : pc = true ∧ disc = true) (h2 : s.mismatchStart = none) :
    detectorPhase now pc disc s =
      { s with mismatchActive := true, mismatchStart := some now, restartCount := 0 } := by
  unfold detectorPhase
  rw [if_pos h, if_pos h2]

/-- Detector block while the run continues: only the flag is refreshed. -/
lemma detectorPhase_keep {pc disc : Bool} (now : Int) (s : BridgeState)
    (h : pc = true ∧ disc = true) (h2 : s.mismatchStart ≠ none) :
    detectorPhase now pc disc s = { s with mismatchActive := true } := by
  unfold detectorPhase
  rw [if_pos h, if_neg h2]

/-- Inert healing outcome shared by all no-action branches. -/
def healInert (s1 : BridgeState) : HealOutcome :=
  ⟨s1, false, "", none, false, false⟩

/-- Healing block disabled / not mismatching. -/
lemma healPhase_off (c : Settings) (now : Int) (cmd : CmdOutcomes) (s1 : BridgeState)
    (h : ¬(c.autoRestartOCPP = true ∧ s1.mismatchActive = true ∧ s1.mismatchStart ≠ none)) :
    healPhase c now cmd s1 = healInert s1 := by
  unfold healPhase
  rw [if_neg h]
  rfl

/-- Healing block with threshold or cooldown not yet satisfied. -/
lemma healPhase_notdue (c : Settings) (now : Int) (cmd : CmdOutcomes) (s1 : BridgeState)
    (hg1 : c.autoRestartOCPP = true ∧ s1.mismatchActive = true ∧ s1.mismatchStart ≠ none)
    (h : ¬(c.ocppMismatchSeconds ≤ now - (s1.mismatchStart.getD 0) ∧
      (s1.lastRestart = none ∨ c.ocppRestartCooldown ≤ now - (s1.lastRestart.getD 0)))) :
    healPhase c now cmd s1 = healInert s1 := by
  unfold healPhase
  rw [if_pos hg1, if_neg h]
  rfl

/-- Healing block: eligible attempt whose command chain ends in an
error (`err != nil` path, the Go `continue`). -/
lemma healPhase_attempt_err (c : Settings) (now : Int) (cmd : CmdOutcomes) (s1 : BridgeState)
    {a d e : String}
    (hg1 : c.autoRestartOCPP = true ∧ s1.mismatchActive = true ∧ s1.mismatchStart ≠ none)
    (hg2 : c.ocppMismatchSeconds ≤ now - (s1.mismatchStart.getD 0) ∧
      (s1.lastRestart = none ∨ c.ocppRestartCooldown ≤ now - (s1.lastRestart.getD 0)))
    (hg3 : c.ocppMaxRestarts = 0 ∨ s1.restartCount < c.ocppMaxRestarts)
    (hr : restartCriticalServices cmd = (a, d, some e)) :
    healPhase c now cmd s1 =
      ⟨{ s1 with lastHealAction := a, lastHealDetail := d, lastHealAt := some now,
                 lastHealError := d },
        true, a, some e, false, true⟩ := by
  unfold healPhase
  rw [if_pos hg1, if_pos hg2, if_pos hg3, hr]

/-- Healing block: eligible attempt that succeeds (bookkeeping update,
including the re-stamp of `mismatchStart`). -/
lemma healPhase_attempt_ok (c : Settings) (now : Int) (cmd : CmdOutcomes) (s1 : BridgeState)
    {a d : String}
    (hg1 : c.autoRestartOCPP = true ∧ s1.mismatchActive = true ∧ s1.mismatchStart ≠ none)
    (hg2 : c.ocppMismatchSeconds ≤ now - (s1.mismatchStart.getD 0) ∧
      (s1.lastRestart = none ∨ c.ocppRestartCooldown ≤ now - (s1.lastRestart.getD 0)))
    (hg3 : c.ocppMaxRestarts = 0 ∨ s1.restartCount < c.ocppMaxRestarts)
    (hr : restartCriticalServices cmd = (a, d, none)) :
    healPhase c now cmd s1 =
      ⟨{ s1 with lastHealAction := a, lastHealDetail := d, lastHealAt := some now,
                 lastHealError := if a = "reboot" then d else "",
                 restartCount := s1.restartCount + 1, lastRestart := some now,
                 mismatchStart := some now, lastRestartAt := some now },
        true, a, none, false, false⟩ := by
  unfold healPhase
  rw [if_pos hg1, if_pos hg2, if_pos hg3, hr]

/-- Healing block: restart budget exhausted, escalation enabled and not
throttled: the full reboot fires. -/
lemma healPhase_escalate (c : Settings) (now : Int) (cmd : CmdOutcomes) (s1 : BridgeState)
    (hg1 : c.autoRestartOCPP = true ∧ s1.mismatchActive = true ∧ s1.mismatchStart ≠ none)
    (hg2 : c.ocppMismatchSeconds ≤ now - (s1.mismatchStart.getD 0) ∧
      (s1.lastRestart = none ∨ c.ocppRestartCooldown ≤ now - (s1.lastRestart.getD 0)))
    (hg3 : ¬(c.ocppMaxRestarts = 0 ∨ s1.restartCount < c.ocppMaxRestarts))
    (hfr : c.ocppFullReboot = true)
    (hgate : s1.lastFullReboot = none ∨
      c.ocppRestartCooldown ≤ now - (s1.lastFullReboot.getD 0)) :
    healPhase c now cmd s1 =
      ⟨{ s1 with lastFullReboot := some now }, false, "", none, true, false⟩ := by
  unfold healPhase
  rw [if_neg hg3, if_pos hg1, if_pos hg2, if_pos hfr, if_pos hgate]

/-- Healing block: escalation gated off by the reboot cooldown. -/
lemma healPhase_escalate_blocked (c : Settings) (now : Int) (cmd : CmdOutcomes)
    (s1 : BridgeState)
    (hg1 : c.autoRestartOCPP = true ∧ s1.mismatchActive = true ∧ s1.mismatchStart ≠ none)
    (hg2 : c.ocppMismatchSeconds ≤ now - (s1.mismatchStart.getD 0) ∧
      (s1.lastRestart = none ∨ c.ocppRestartCooldown ≤ now - (s1.lastRestart.getD 0)))
    (hg3 : ¬(c.ocppMaxRestarts = 0 ∨ s1.restartCount < c.ocppMaxRestarts))
    (hfr : c.ocppFullReboot = true)
    (hgate : ¬(s1.lastFullReboot = none ∨
      c.ocppRestartCooldown ≤ now - (s1.lastFullReboot.getD 0))) :
    healPhase c now cmd s1 = healInert s1 := by
  unfold healPhase
  rw [if_neg hg3, if_pos hg1, if_pos hg2, if_pos hfr, if_neg hgate]
  rfl

/-- Healing block: budget exhausted and no escalation configured. -/
lemma healPhase_noescal (c : Settings) (now : Int) (cmd : CmdOutcomes) (s1 : BridgeState)
    (hg1 : c.autoRestartOCPP = true ∧ s1.mismatchActive = true ∧ s1.mismatchStart ≠ none)
    (hg2 : c.ocppMismatchSeconds ≤ now - (s1.mismatchStart.getD 0) ∧
      (s1.lastRestart = none ∨ c.ocppRestartCooldown ≤ now - (s1.lastRestart.getD 0)))
    (hg3 : ¬(c.ocppMaxRestarts = 0 ∨ s1.restartCount < c.ocppMaxRestarts))
    (hfr : c.ocppFullReboot = false) :
    healPhase c now cmd s1 = healInert s1 := by
  unfold healPhase
  rw [if_neg hg3, if_pos hg1, if_pos hg2, hfr]
  rfl

/-- Safety net disabled. -/
lemma pilotNetPhase_off (c : Settings) (now pilotCode : Int) (s : BridgeState)
    (h : c.pilotErrorReboot = false) :
    pilotNetPhase c now pilotCode s = (s, false) := by
  unfold pilotNetPhase
  rw [h]
  rfl

/-- Safety net: fault code not observed, window reset. -/
lemma pilotNetPhase_clear (c : Settings) (now pilotCode : Int) (s : BridgeState)
    (hon : c.pilotErrorReboot = true) (h14 : pilotCode ≠ 14) :
    pilotNetPhase c now pilotCode s = ({ s with pilotErrorStart := none }, false) := by
  unfold pilotNetPhase
  rw [hon, if_pos rfl, if_neg h14]

/-- Safety net: fault observed with no open window and a positive
configured duration: the window opens, nothing fires. -/
lemma pilotNetPhase_open (c : Settings) (now pilotCode : Int) (s : BridgeState)
    (hon : c.pilotErrorReboot = true) (h14 : pilotCode = 14)
    (hnone : s.pilotErrorStart = none) (hpos : 0 < c.pilotErrorSeconds) :
    pilotNetPhase c now pilotCode s = ({ s with pilotErrorStart := some now }, false) := by
  unfold pilotNetPhase
  rw [hon, if_pos rfl, if_pos h14, if_pos hnone]
  rw [if_neg (by simp only [Option.getD_some]; omega)]

/-- Safety net: open window, duration elapsed, own throttle clear: the
reboot fires, the window closes, the net's own timestamp is stamped. -/
lemma pilotNetPhase_fire (c : Settings) (now pilotCode : Int) (s : BridgeState) {t0 : Int}
    (hon : c.pilotErrorReboot = true) (h14 : pilotCode = 14)
    (hsome : s.pilotErrorStart = some t0)
    (hdur : c.pilotErrorSeconds ≤ now - t0)
    (hthr : s.lastPilotErrorReboot = none ∨
      c.pilotErrorSeconds ≤ now - (s.lastPilotErrorReboot.getD 0)) :
    pilotNetPhase c now pilotCode s =
      ({ s with pilotErrorStart := none, lastPilotErrorReboot := some now }, true) := by
  unfold pilotNetPhase
  rw [hon, if_pos rfl, if_pos h14, hsome]
  rw [if_neg (Option.some_ne_none t0)]
  simp only [Option.getD_some]
  rw [if_pos hdur, if_pos hthr]

/-- Safety net: open window, duration elapsed, but the net's own
last-reboot throttle blocks: nothing fires, the window stays open. -/
lemma pilotNetPhase_throttled (c : Settings) (now pilotCode : Int) (s : BridgeState) {t0 : Int}
    (hon : c.pilotErrorReboot = true) (h14 : pilotCode = 14)
    (hsome : s.pilotErrorStart = some t0)
    (hdur : c.pilotErrorSeconds ≤ now - t0)
    (hthr : ¬(s.lastPilotErrorReboot = none ∨
      c.pilotErrorSeconds ≤ now - (s.lastPilotErrorReboot.getD 0))) :
    pilotNetPhase c now pilotCode s = ({ s with pilotErrorStart := some t0 }, false) := by
  unfold pilotNetPhase
  rw [hon, if_pos rfl, if_pos h14, hsome]
  rw [if_neg (Option.some_ne_none t0)]
  simp only [Option.getD_some]
  rw [if_pos hdur, if_neg hthr]

/-- Safety net: open window whose duration has not yet elapsed. -/
lemma pilotNetPhase_waiting (c : Settings) (now pilotCode : Int) (s : BridgeState) {t0 : Int}
    (hon : c.pilotErrorReboot = true) (h14 : pilotCode = 14)
    (hsome : s.pilotErrorStart = some t0)
    (hlt : now - t0 < c.pilotErrorSeconds) :
    pilotNetPhase c now pilotCode s = ({ s with pilotErrorStart := some t0 }, false) := by
  unfold pilotNetPhase
  rw [hon, if_pos rfl, if_pos h14, hsome]
  rw [if_neg (Option.some_ne_none t0)]
  simp only [Option.getD_some]
  rw [if_neg (show ¬(c.pilotErrorSeconds ≤ now - t0) by omega)]

/-- `tick` in terms of its three phases (definitional). -/
lemma tick_unfold (c : Settings) (i : TickInput) (s : BridgeState) :
    tick c i s =
      (let h := healPhase c i.now i.cmd (detectorPhase i.now (pilotConnected i.wb)
          (ocppStatusIndicatesDisconnect (OCPPStatusCode i.now i.wb.slots)) s)
       if h.skipRest then
        (h.st, ⟨h.attempted, h.action, h.attemptErr, false, false⟩)
       else
        let net := pilotNetPhase c i.now (ControlPilotCode i.wb) h.st
        (net.1, ⟨h.attempted, h.action, h.attemptErr, h.escalReboot, net.2⟩)) := rfl

/-- A tick whose healing phase ends in the Go `continue`: the safety net
does not run. -/
lemma tick_eq_of_heal_skip (c : Settings) (i : TickInput) (s : BridgeState)
    (hout : HealOutcome)
    (hh : healPhase c i.now i.cmd (detectorPhase i.now (pilotConnected i.wb)
      (ocppStatusIndicatesDisconnect (OCPPStatusCode i.now i.wb.slots)) s) = hout)
    (hskip : hout.skipRest = true) :
    tick c i s =
      (hout.st, ⟨hout.attempted, hout.action, hout.attemptErr, false, false⟩) := by
  rw [tick_unfold]
  simp only [hh, hskip, if_true]

/-- A tick whose healing phase does not short-circuit: the safety net
runs on the healing phase's state. -/
lemma tick_eq_of_heal_noskip (c : Settings) (i : TickInput) (s : BridgeState)
    (hout : HealOutcome)
    (hh : healPhase c i.now i.cmd (detectorPhase i.now (pilotConnected i.wb)
      (ocppStatusIndicatesDisconnect (OCPPStatusCode i.now i.wb.slots)) s) = hout)
    (hskip : hout.skipRest = false) :
    tick c i s =
      ((pilotNetPhase c i.now (ControlPilotCode i.wb) hout.st).1,
        ⟨hout.attempted, hout.action, hout.attemptErr, hout.escalReboot,
          (pilotNetPhase c i.now (ControlPilotCode i.wb) hout.st).2⟩) := by
  rw [tick_unfold]
  simp only [hh, hskip, Bool.false_eq_true, if_false]

/-- The detector block never touches the throttle, safety-net or heal
bookkeeping fields. -/
lemma detectorPhase_fixed {pc disc : Bool} (now : Int) (s : BridgeState) :
    (detectorPhase now pc disc s).lastRestart = s.lastRestart ∧
    (detectorPhase now pc disc s).lastFullReboot = s.lastFullReboot ∧
    (detectorPhase now pc disc s).pilotErrorStart = s.pilotErrorStart ∧
    (detectorPhase now pc disc s).lastPilotErrorReboot = s.lastPilotErrorReboot ∧
    (detectorPhase now pc disc s).lastHealError = s.lastHealError ∧
    (detectorPhase now pc disc s).lastRestartAt = s.lastRestartAt := by
  unfold detectorPhase
  split_ifs <;> simp

/-- The safety net only touches its own two fields. -/
lemma pilotNetPhase_fixed (c : Settings) (now code : Int) (s : BridgeState) :
    (pilotNetPhase c now code s).1.mismatchActive = s.mismatchActive ∧
    (pilotNetPhase c now code s).1.mismatchStart = s.mismatchStart ∧
    (pilotNetPhase c now code s).1.restartCount = s.restartCount ∧
    (pilotNetPhase c now code s).1.lastRestart = s.lastRestart ∧
    (pilotNetPhase c now code s).1.lastFullReboot = s.lastFullReboot ∧
    (pilotNetPhase c now code s).1.lastHealError = s.lastHealError ∧
    (pilotNetPhase c now code s).1.lastRestartAt = s.lastRestartAt := by
  unfold pilotNetPhase
  split_ifs <;> simp <;> split_ifs <;> simp

/-- The safety net never touches the full-reboot throttle stamp. -/
lemma netKeeps_lastFullReboot (c : Settings) (now code : Int) (s : BridgeState) :
    (pilotNetPhase c now code s).1.lastFullReboot = s.lastFullReboot :=
  (pilotNetPhase_fixed c now code s).2.2.2.2.1

/-- The detector never touches the full-reboot throttle stamp. -/
lemma detKeeps_lastFullReboot {pc disc : Bool} (now : Int) (s : BridgeState) :
    (detectorPhase now pc disc s).lastFullReboot = s.lastFullReboot :=
  (detectorPhase_fixed now s).2.1

/-- Across one tick, the full-reboot timestamp either is untouched (no
escalation fired) or is stamped to the tick time, and in the latter case
the escalation cooldown gate held against the previous stamp. -/
lemma tick_fullReboot_cases (c : Settings) (i : TickInput) (s : BridgeState) :
    ((tickFx c i s).escalationReboot = false ∧
      (tickState c i s).lastFullReboot = s.lastFullReboot) ∨
    ((tickFx c i s).escalationReboot = true ∧
      (tickState c i s).lastFullReboot = some i.now ∧
      (s.lastFullReboot = none ∨
        ∃ tf, s.lastFullReboot = some tf ∧ c.ocppRestartCooldown ≤ i.now - tf)) := by
  unfold tickFx tickState
  set s1 := detectorPhase i.now (pilotConnected i.wb)
    (ocppStatusIndicatesDisconnect (OCPPStatusCode i.now i.wb.slots)) s with hs1
  have hs1f : s1.lastFullReboot = s.lastFullReboot := detKeeps_lastFullReboot i.now s
  by_cases hg1 : c.autoRestartOCPP = true ∧ s1.mismatchActive = true ∧ s1.mismatchStart ≠ none
  case neg =>
    rw [tick_eq_of_heal_noskip c i s (healInert s1) (healPhase_off c i.now i.cmd s1 hg1) rfl]
    refine Or.inl ⟨rfl, ?_⟩
    show (pilotNetPhase c i.now (ControlPilotCode i.wb) (healInert s1).st).1.lastFullReboot =
      s.lastFullReboot
    rw [netKeeps_lastFullReboot]
    exact hs1f
  case pos =>
    by_cases hg2 : c.ocppMismatchSeconds ≤ i.now - s1.mismatchStart.getD 0 ∧
        (s1.lastRestart = none ∨ c.ocppRestartCooldown ≤ i.now - s1.lastRestart.getD 0)
    case neg =>
      rw [tick_eq_of_heal_noskip c i s (healInert s1)
        (healPhase_notdue c i.now i.cmd s1 hg1 hg2) rfl]
      refine Or.inl ⟨rfl, ?_⟩
      show (pilotNetPhase c i.now (ControlPilotCode i.wb) (healInert s1).st).1.lastFullReboot =
        s.lastFullReboot
      rw [netKeeps_lastFullReboot]
      exact hs1f
    case pos =>
      by_cases hg3 : c.ocppMaxRestarts = 0 ∨ s1.restartCount < c.ocppMaxRestarts
      case pos =>
        rcases hr : restartCriticalServices i.cmd with ⟨a, d, e⟩
        cases e with
        | some err =>
          rw [tick_eq_of_heal_skip c i s _
            (healPhase_attempt_err c i.now i.cmd s1 hg1 hg2 hg3 hr) rfl]
          exact Or.inl ⟨rfl, hs1f⟩
        | none =>
          rw [tick_eq_of_heal_noskip c i s _
            (healPhase_attempt_ok c i.now i.cmd s1 hg1 hg2 hg3 hr) rfl]
          refine Or.inl ⟨rfl, ?_⟩
          rw [netKeeps_lastFullReboot]
          exact hs1f
      case neg =>
        by_cases hfr : c.ocppFullReboot = true
        case pos =>
          by_cases hgate : s1.lastFullReboot = none ∨
              c.ocppRestartCooldown ≤ i.now - s1.lastFullReboot.getD 0
          case pos =>
            rw [tick_eq_of_heal_noskip c i s _
              (healPhase_escalate c i.now i.cmd s1 hg1 hg2 hg3 hfr hgate) rfl]
            refine Or.inr ⟨rfl, ?_, ?_⟩
            · rw [netKeeps_lastFullReboot]
            · rw [hs1f] at hgate
              rcases hgate with h | h
              · exact Or.inl h
              · rcases hsf : s.lastFullReboot with _ | tf
                · exact Or.inl rfl
                · exact Or.inr ⟨tf, rfl, by rw [hsf] at h; simpa using h⟩
          case neg =>
            rw [tick_eq_of_heal_noskip c i s (healInert s1)
              (healPhase_escalate_blocked c i.now i.cmd s1 hg1 hg2 hg3 hfr hgate) rfl]
            refine Or.inl ⟨rfl, ?_⟩
            show (pilotNetPhase c i.now (ControlPilotCode i.wb) (healInert s1).st).1.lastFullReboot =
              s.lastFullReboot
            rw [netKeeps_lastFullReboot]
            exact hs1f
        case neg =>
          have hfr2 : c.ocppFullReboot = false := by
            revert hfr; cases c.ocppFullReboot <;> simp
          rw [tick_eq_of_heal_noskip c i s (healInert s1)
            (healPhase_noescal c i.now i.cmd s1 hg1 hg2 hg3 hfr2) rfl]
          refine Or.inl ⟨rfl, ?_⟩
          show (pilotNetPhase c i.now (ControlPilotCode i.wb) (healInert s1).st).1.lastFullReboot =
            s.lastFullReboot
          rw [netKeeps_lastFullReboot]
          exact hs1f

/-- Unfolding of `escalationRebootTimes` on a cons cell. -/
lemma escalationRebootTimes_cons (c : Settings) (s : BridgeState) (i : TickInput)
    (L : List TickInput) :
    escalationRebootTimes c s (i :: L) =
      (if (tickFx c i s).escalationReboot then [i.now] else []) ++
        escalationRebootTimes c (tickState c i s) L := rfl

/-- Along any trace, consecutive full-reboot escalations are separated by
at least the restart cooldown; if a reboot stamp is already present, the
first escalation of the trace also respects it. -/
lemma escalationChain (c : Settings) : ∀ (L : List TickInput) (s : BridgeState),
    (s.lastFullReboot = none →
      List.Chain' (fun a b => c.ocppRestartCooldown ≤ b - a)
        (escalationRebootTimes c s L)) ∧
    (∀ tf, s.lastFullReboot = some tf →
      List.Chain' (fun a b => c.ocppRestartCooldown ≤ b - a)
        (tf :: escalationRebootTimes c s L)) := by
  intro L
  induction L with
  | nil =>
    intro s
    exact ⟨fun _ => by simp [escalationRebootTimes],
      fun tf _ => by simp [escalationRebootTimes]⟩
  | cons i L ih =>
    intro s
    rcases tick_fullReboot_cases c i s with ⟨hfx, hst⟩ | ⟨hfx, hst, hgate⟩
    · rw [escalationRebootTimes_cons, hfx]
      simp only [Bool.false_eq_true, if_false, List.nil_append]
      refine ⟨fun hnone => (ih (tickState c i s)).1 (by rw [hst, hnone]),
        fun tf htf => (ih (tickState c i s)).2 tf (by rw [hst, htf])⟩
    · rw [escalationRebootTimes_cons, hfx]
      simp only [if_true, List.singleton_append]
      have htail := (ih (tickState c i s)).2 i.now hst
      refine ⟨fun _ => htail, fun tf htf => List.chain'_cons.mpr ⟨?_, htail⟩⟩
      rcases hgate with h | ⟨tf2, h2, h3⟩
      · rw [htf] at h; cases h
      · rw [htf] at h2
        have : tf2 = tf := by injection h2.symm
        rw [← this]
        exact h3

/-! ## Claims -/

/-- C1: for every state of the three status sources, `OCPPStatusCode`
returns the journal slot's code when that observation is non-negative and
within the 10-minute staleness window; otherwise the session-event slot's
code when that one is fresh; otherwise the raw telemetry status value
unconditionally, even if stale or zero, so the resolver always yields a
value. -/
theorem c1_resolver_priority (now : Int) (st : OCPPSlots) :
    (0 ≤ st.journalCode → now - st.journalUpdated < ocppStatusCacheTTL →
      OCPPStatusCode now st = st.journalCode) ∧
    (¬(0 ≤ st.journalCode ∧ now - st.journalUpdated < ocppStatusCacheTTL) →
      0 ≤ st.telemetryCode → now - st.telemetryUpdated < ocppStatusCacheTTL →
      OCPPStatusCode now st = st.telemetryCode) ∧
    (¬(0 ≤ st.journalCode ∧ now - st.journalUpdated < ocppStatusCacheTTL) →
      ¬(0 ≤ st.telemetryCode ∧ now - st.telemetryUpdated < ocppStatusCacheTTL) →
      OCPPStatusCode now st = st.rawOCPPStatus) := by
  refine ⟨fun h1 h2 => ?_, fun hj h1 h2 => ?_, fun hj ht => ?_⟩
  · rcases resolverCases now st with ⟨_, _, h⟩ | ⟨hn, _, _⟩ | ⟨hn, _, _⟩
    · exact h
    · exact absurd ⟨h1, h2⟩ hn
    · exact absurd ⟨h1, h2⟩ hn
  · rcases resolverCases now st with ⟨ha, hb, _⟩ | ⟨_, _, h⟩ | ⟨_, hn, _⟩
    · exact absurd ⟨ha, hb⟩ hj
    · exact h
    · exact absurd ⟨h1, h2⟩ hn
  · rcases resolverCases now st with ⟨ha, hb, _⟩ | ⟨_, hn, _⟩ | ⟨_, _, h⟩
    · exact absurd ⟨ha, hb⟩ hj
    · exact absurd hn ht
    · exact h

/-- C1 witness: with a stale journal observation (code 5, 100000 s old),
a stale session observation (code 7) and raw telemetry 0, the resolver
degrades to the raw value 0. -/
theorem c1_resolver_priority_witness :
    OCPPStatusCode 100000 ⟨5, 0, 7, 0, 0⟩ = 0 :=
  (c1_resolver_priority 100000 ⟨5, 0, 7, 0, 0⟩).2.2 (by decide) (by decide)

/-- C2: `ocppStatusIndicatesDisconnect` holds exactly for the codes whose
OCPP descriptions are Available, Finishing, Unavailable and Faulted, and
is false for SuspendedEVSE (4) and SuspendedEV (5). -/
theorem c2_disconnect_set :
    (∀ code : Int, ocppStatusIndicatesDisconnect code = true ↔
      (describeOCPPStatus code = "Available" ∨ describeOCPPStatus code = "Finishing" ∨
        describeOCPPStatus code = "Unavailable" ∨ describeOCPPStatus code = "Faulted")) ∧
    ocppStatusIndicatesDisconnect 4 = false ∧
    ocppStatusIndicatesDisconnect 5 = false ∧
    describeOCPPStatus 4 = "SuspendedEVSE" ∧
    describeOCPPStatus 5 = "SuspendedEV" := by
  refine ⟨fun code => ?_, by decide, by decide, by decide, by decide⟩
  unfold ocppStatusIndicatesDisconnect ocppProblemStates describeOCPPStatus
  split_ifs <;> simp_all

/-- The detector conjunction holds iff both inputs of the detector
hold. -/
lemma mismatchConj_iff (i : TickInput) : mismatchConj i = true ↔
    (pilotConnected i.wb = true ∧
      ocppStatusIndicatesDisconnect (OCPPStatusCode i.now i.wb.slots) = true) := by
  unfold mismatchConj
  exact iff_of_eq (Bool.and_eq_true _ _)

/-- The safety net never touches the mismatch window. -/
lemma netKeeps_mismatchActive (c : Settings) (now code : Int) (s : BridgeState) :
    (pilotNetPhase c now code s).1.mismatchActive = s.mismatchActive :=
  (pilotNetPhase_fixed c now code s).1

/-- The safety net never touches the mismatch start. -/
lemma netKeeps_mismatchStart (c : Settings) (now code : Int) (s : BridgeState) :
    (pilotNetPhase c now code s).1.mismatchStart = s.mismatchStart :=
  (pilotNetPhase_fixed c now code s).2.1

/-- The safety net never touches the restart count. -/
lemma netKeeps_restartCount (c : Settings) (now code : Int) (s : BridgeState) :
    (pilotNetPhase c now code s).1.restartCount = s.restartCount :=
  (pilotNetPhase_fixed c now code s).2.2.1

/-- The safety net never touches the restart throttle. -/
lemma netKeeps_lastRestart (c : Settings) (now code : Int) (s : BridgeState) :
    (pilotNetPhase c now code s).1.lastRestart = s.lastRestart :=
  (pilotNetPhase_fixed c now code s).2.2.2.1

/-- The safety net never touches the heal error record. -/
lemma netKeeps_lastHealError (c : Settings) (now code : Int) (s : BridgeState) :
    (pilotNetPhase c now code s).1.lastHealError = s.lastHealError :=
  (pilotNetPhase_fixed c now code s).2.2.2.2.2.1

/-- The safety net never touches the last-restart record. -/
lemma netKeeps_lastRestartAt (c : Settings) (now code : Int) (s : BridgeState) :
    (pilotNetPhase c now code s).1.lastRestartAt = s.lastRestartAt :=
  (pilotNetPhase_fixed c now code s).2.2.2.2.2.2

/-- The healing block leaves the mismatch window alone unless a restart
attempt succeeds, in which case it re-stamps `mismatchStart` to the tick
time and increments the count; the active flag is never touched. -/
lemma healPhase_window_cases (c : Settings) (now : Int) (cmd : CmdOutcomes)
    (s1 : BridgeState) :
    ((healPhase c now cmd s1).st.mismatchActive = s1.mismatchActive ∧
      (healPhase c now cmd s1).st.mismatchStart = s1.mismatchStart ∧
      (healPhase c now cmd s1).st.restartCount = s1.restartCount ∧
      ¬((healPhase c now cmd s1).attempted = true ∧
        (healPhase c now cmd s1).attemptErr = none)) ∨
    (s1.mismatchActive = true ∧
      (healPhase c now cmd s1).st.mismatchActive = s1.mismatchActive ∧
      (healPhase c now cmd s1).st.mismatchStart = some now ∧
      (healPhase c now cmd s1).st.restartCount = s1.restartCount + 1 ∧
      (healPhase c now cmd s1).attempted = true ∧
      (healPhase c now cmd s1).attemptErr = none) := by
  unfold healPhase
  rcases hr : restartCriticalServices cmd with ⟨a, d, e⟩
  cases e <;> split_ifs <;> simp_all

/-- Tick-level version of `healPhase_window_cases`: relative to the
detector's output, a tick either leaves the window untouched (and no
successful restart attempt happened) or re-stamps it to the tick time by
a successful restart attempt. -/
lemma tick_window_cases (c : Settings) (i : TickInput) (s : BridgeState) :
    ((tickState c i s).mismatchActive =
        (detectorPhase i.now (pilotConnected i.wb)
          (ocppStatusIndicatesDisconnect (OCPPStatusCode i.now i.wb.slots)) s).mismatchActive ∧
      (tickState c i s).mismatchStart =
        (detectorPhase i.now (pilotConnected i.wb)
          (ocppStatusIndicatesDisconnect (OCPPStatusCode i.now i.wb.slots)) s).mismatchStart ∧
      (tickState c i s).restartCount =
        (detectorPhase i.now (pilotConnected i.wb)
          (ocppStatusIndicatesDisconnect (OCPPStatusCode i.now i.wb.slots)) s).restartCount ∧
      ¬((tickFx c i s).restartAttempted = true ∧ (tickFx c i s).attemptErr = none)) ∨
    ((detectorPhase i.now (pilotConnected i.wb)
        (ocppStatusIndicatesDisconnect (OCPPStatusCode i.now i.wb.slots)) s).mismatchActive = true ∧
      (tickState c i s).mismatchActive =
        (detectorPhase i.now (pilotConnected i.wb)
          (ocppStatusIndicatesDisconnect (OCPPStatusCode i.now i.wb.slots)) s).mismatchActive ∧
      (tickState c i s).mismatchStart = some i.now ∧
      (tickState c i s).restartCount =
        (detectorPhase i.now (pilotConnected i.wb)
          (ocppStatusIndicatesDisconnect (OCPPStatusCode i.now i.wb.slots)) s).restartCount + 1 ∧
      (tickFx c i s).restartAttempted = true ∧ (tickFx c i s).attemptErr = none) := by
  unfold tickFx tickState
  set s1 := detectorPhase i.now (pilotConnected i.wb)
    (ocppStatusIndicatesDisconnect (OCPPStatusCode i.now i.wb.slots)) s with hs1
  by_cases hskip : (healPhase c i.now i.cmd s1).skipRest = true
  · rw [tick_eq_of_heal_skip c i s _ rfl hskip]
    rcases healPhase_window_cases c i.now i.cmd s1 with ⟨hA, hS, hC, hNo⟩ | ⟨hAct, hA, hS, hC, hAtt, hErr⟩
    · exact Or.inl ⟨hA, hS, hC, hNo⟩
    · exact Or.inr ⟨hAct, hA, hS, hC, hAtt, hErr⟩
  · have hskip2 : (healPhase c i.now i.cmd s1).skipRest = false := by
      revert hskip; cases (healPhase c i.now i.cmd s1).skipRest <;> simp
    rw [tick_eq_of_heal_noskip c i s _ rfl hskip2]
    rcases healPhase_window_cases c i.now i.cmd s1 with ⟨hA, hS, hC, hNo⟩ | ⟨hAct, hA, hS, hC, hAtt, hErr⟩
    · exact Or.inl ⟨(netKeeps_mismatchActive _ _ _ _).trans hA,
        (netKeeps_mismatchStart _ _ _ _).trans hS,
        (netKeeps_restartCount _ _ _ _).trans hC, hNo⟩
    · exact Or.inr ⟨hAct, (netKeeps_mismatchActive _ _ _ _).trans hA,
        (netKeeps_mismatchStart _ _ _ _).trans hS,
        (netKeeps_restartCount _ _ _ _).trans hC, hAtt, hErr⟩

/-- C3 counterexample: with healing enabled (default settings), a
contiguous run of mismatch ticks at t = 1 and t = 61 (the conjunction
holds on both) assigns `mismatchStart` twice: it is stamped to 1 on the
first tick and re-stamped to 61 by the successful restart attempt of the
second tick, refuting "assigned exactly once per contiguous run". -/
theorem c3_started_at_counterexample :
    mismatchConj ⟨1, wbDisc 177, cmdAllOk⟩ = true ∧
    mismatchConj ⟨61, wbDisc 177, cmdAllOk⟩ = true ∧
    c3s1.mismatchStart = some 1 ∧
    c3s2.mismatchStart = some 61 ∧
    c3s1.mismatchStart ≠ c3s2.mismatchStart := by decide

/-- C3 amended: `mismatchStart` is cleared to zero (with `restart_count`)
on any tick where the conjunction fails; it is stamped on the first tick
of a run; on later ticks of a run it is left unchanged unless a restart
attempt succeeds on that tick, in which case it is re-stamped to the
tick's time. -/
theorem c3_started_at_lifecycle (c : Settings) (i : TickInput) (s : BridgeState) :
    (mismatchConj i = false →
      (tickState c i s).mismatchActive = false ∧
      (tickState c i s).mismatchStart = none ∧
      (tickState c i s).restartCount = 0) ∧
    (mismatchConj i = true → s.mismatchStart = none →
      (tickState c i s).mismatchActive = true ∧
      (tickState c i s).mismatchStart = some i.now) ∧
    (mismatchConj i = true → s.mismatchStart ≠ none →
      ((tickFx c i s).restartAttempted = true ∧ (tickFx c i s).attemptErr = none ∧
        (tickState c i s).mismatchStart = some i.now) ∨
      (¬((tickFx c i s).restartAttempted = true ∧ (tickFx c i s).attemptErr = none) ∧
        (tickState c i s).mismatchStart = s.mismatchStart)) := by
  refine ⟨fun hF => ?_, fun hT hnone => ?_, fun hT hsome => ?_⟩
  · have hnc : ¬(pilotConnected i.wb = true ∧
        ocppStatusIndicatesDisconnect (OCPPStatusCode i.now i.wb.slots) = true) := by
      intro hc
      rw [(mismatchConj_iff i).mpr hc] at hF
      exact Bool.noConfusion hF
    have hd := detectorPhase_clear i.now s hnc
    rcases tick_window_cases c i s with ⟨hA, hS, hC, _⟩ | ⟨hAct, _, _, _, _, _⟩
    · rw [hd] at hA hS hC
      exact ⟨hA, hS, hC⟩
    · rw [hd] at hAct
      exact absurd hAct (by simp)
  · have hpc := (mismatchConj_iff i).mp hT
    have hd := detectorPhase_stamp i.now s hpc hnone
    rcases tick_window_cases c i s with ⟨hA, hS, _, _⟩ | ⟨_, hA, hS, _, _, _⟩
    · rw [hd] at hA hS
      exact ⟨hA, hS⟩
    · rw [hd] at hA
      exact ⟨hA, hS⟩
  · have hpc := (mismatchConj_iff i).mp hT
    have hd := detectorPhase_keep i.now s hpc hsome
    rcases tick_window_cases c i s with ⟨_, hS, _, hNo⟩ | ⟨_, _, hS, _, hAtt, hErr⟩
    · rw [hd] at hS
      exact Or.inr ⟨hNo, hS⟩
    · exact Or.inl ⟨hAtt, hErr, hS⟩

/-- C3 witness: on the first mismatch tick (t = 1) from the initial
state, the window becomes active with `mismatchStart` stamped to 1. -/
theorem c3_started_at_lifecycle_witness :
    (tickState cAuto ⟨1, wbDisc 177, cmdAllOk⟩ BridgeState.init).mismatchActive = true ∧
    (tickState cAuto ⟨1, wbDisc 177, cmdAllOk⟩ BridgeState.init).mismatchStart = some 1 :=
  (c3_started_at_lifecycle cAuto ⟨1, wbDisc 177, cmdAllOk⟩ BridgeState.init).2.1
    (by decide) (by decide)

/-- State with the restart budget exhausted after a mismatch window
beginning at t = 0 and a last restart at t = 0. -/
def c4state : BridgeState :=
  { BridgeState.init with
    mismatchActive := true, mismatchStart := some 0,
    restartCount := 3, lastRestart := some 0 }

/-- C4: when the restart count has reached a non-zero maximum, escalation
is enabled and its cooldown gate holds (together with the mismatch
threshold and restart cooldown gates), the tick fires exactly one full
reboot and stamps `lastFullReboot`; no tick fires while the cooldown
since the last full reboot has not elapsed; and along any trace the
escalation firing times are separated by at least the cooldown. -/
theorem c4_escalation_once (c : Settings) :
    (∀ (i : TickInput) (s : BridgeState) (t0 : Int),
      c.autoRestartOCPP = true →
      mismatchConj i = true →
      s.mismatchStart = some t0 →
      c.ocppMismatchSeconds ≤ i.now - t0 →
      (s.lastRestart = none ∨
        ∃ tr, s.lastRestart = some tr ∧ c.ocppRestartCooldown ≤ i.now - tr) →
      ¬(c.ocppMaxRestarts = 0) →
      c.ocppMaxRestarts ≤ s.restartCount →
      c.ocppFullReboot = true →
      (s.lastFullReboot = none ∨
        ∃ tf, s.lastFullReboot = some tf ∧ c.ocppRestartCooldown ≤ i.now - tf) →
      (tickFx c i s).escalationReboot = true ∧
        (tickState c i s).lastFullReboot = some i.now) ∧
    (∀ (i : TickInput) (s : BridgeState) (tf : Int),
      s.lastFullReboot = some tf → i.now - tf < c.ocppRestartCooldown →
      (tickFx c i s).escalationReboot = false) ∧
    (∀ (s : BridgeState) (L : List TickInput),
      s.lastFullReboot = none →
      List.Chain' (fun a b => c.ocppRestartCooldown ≤ b - a)
        (escalationRebootTimes c s L)) := by
  refine ⟨?_, ?_, ?_⟩
  · intro i s t0 hauto hconj hstart hth hcool hmax0 hmaxle hfr hgate
    have hpc := (mismatchConj_iff i).mp hconj
    have hsome : s.mismatchStart ≠ none := by rw [hstart]; simp
    have hd := detectorPhase_keep i.now s hpc hsome
    have hg1 : c.autoRestartOCPP = true ∧
        (detectorPhase i.now (pilotConnected i.wb)
          (ocppStatusIndicatesDisconnect (OCPPStatusCode i.now i.wb.slots)) s).mismatchActive = true ∧
        (detectorPhase i.now (pilotConnected i.wb)
          (ocppStatusIndicatesDisconnect (OCPPStatusCode i.now i.wb.slots)) s).mismatchStart ≠ none := by
      rw [hd]
      exact ⟨hauto, rfl, hsome⟩
    have hg2 : c.ocppMismatchSeconds ≤ i.now -
        ((detectorPhase i.now (pilotConnected i.wb)
          (ocppStatusIndicatesDisconnect (OCPPStatusCode i.now i.wb.slots)) s).mismatchStart.getD 0) ∧
        ((detectorPhase i.now (pilotConnected i.wb)
          (ocppStatusIndicatesDisconnect (OCPPStatusCode i.now i.wb.slots)) s).lastRestart = none ∨
          c.ocppRestartCooldown ≤ i.now -
            ((detectorPhase i.now (pilotConnected i.wb)
              (ocppStatusIndicatesDisconnect (OCPPStatusCode i.now i.wb.slots)) s).lastRestart.getD 0)) := by
      rw [hd]
      constructor
      · rw [hstart]
        simpa using hth
      · rcases hcool with h | ⟨tr, htr, hle⟩
        · exact Or.inl h
        · rw [htr]
          exact Or.inr (by simpa using hle)
    have hg3 : ¬(c.ocppMaxRestarts = 0 ∨
        (detectorPhase i.now (pilotConnected i.wb)
          (ocppStatusIndicatesDisconnect (OCPPStatusCode i.now i.wb.slots)) s).restartCount <
          c.ocppMaxRestarts) := by
      rw [hd]
      rintro (h | h)
      · exact hmax0 h
      · exact absurd h (not_lt.mpr hmaxle)
    have hgate2 : (detectorPhase i.now (pilotConnected i.wb)
        (ocppStatusIndicatesDisconnect (OCPPStatusCode i.now i.wb.slots)) s).lastFullReboot = none ∨
        c.ocppRestartCooldown ≤ i.now -
          ((detectorPhase i.now (pilotConnected i.wb)
            (ocppStatusIndicatesDisconnect (OCPPStatusCode i.now i.wb.slots)) s).lastFullReboot.getD 0) := by
      rw [hd]
      rcases hgate with h | ⟨tf, htf, hle⟩
      · exact Or.inl h
      · rw [htf]
        exact Or.inr (by simpa using hle)
    have hesc := healPhase_escalate c i.now i.cmd _ hg1 hg2 hg3 hfr hgate2
    unfold tickFx tickState
    rw [tick_eq_of_heal_noskip c i s _ hesc rfl]
    exact ⟨rfl, by rw [netKeeps_lastFullReboot]⟩
  · intro i s tf hstamp hlt
    rcases tick_fullReboot_cases c i s with ⟨hfx, _⟩ | ⟨_, _, hgate⟩
    · exact hfx
    · exfalso
      rcases hgate with h | ⟨tf2, h2, h3⟩
      · rw [hstamp] at h
        cases h
      · rw [hstamp] at h2
        have heq : tf2 = tf := by injection h2.symm
        rw [heq] at h3
        omega
  · intro s L h
    exact (escalationChain c L s).1 h

/-- C4 witness: budget exhausted (count 3 of 3) with mismatch since
t = 0, last restart at t = 0, no prior full reboot: at t = 700 the
escalation fires and stamps the reboot time. -/
theorem c4_escalation_once_witness :
    (tickFx cEscal ⟨700, wbDisc 177, cmdAllOk⟩ c4state).escalationReboot = true ∧
    (tickState cEscal ⟨700, wbDisc 177, cmdAllOk⟩ c4state).lastFullReboot = some 700 :=
  (c4_escalation_once cEscal).1 ⟨700, wbDisc 177, cmdAllOk⟩ c4state 0
    (by decide) (by decide) (by decide) (by decide)
    (Or.inr ⟨0, by decide, by decide⟩) (by decide) (by decide) (by decide)
    (Or.inl (by decide))

/-- Mismatch tick at time `t` with all commands succeeding. -/
def c5tickAt (t : Int) : TickInput := ⟨t, wbDisc 177, cmdAllOk⟩

/-- The bridge state after four mismatch ticks (detection at t = 1 and
successful restart attempts at t = 61, 661, 1261) under a configuration
whose `ocpp_max_restarts` was written as 0. -/
def c5s4 : BridgeState :=
  runTicks cZeroMax BridgeState.init [c5tickAt 1, c5tickAt 61, c5tickAt 661, c5tickAt 1261]

/-- C5: a configured `ocpp_max_restarts = 0` is coerced to 3 by the
`<= 0` defaulting, so the gate's `== 0` unlimited branch is dead: after
three attempts in one window, the next tick satisfies the mismatch
threshold and the cooldown and yet executes no restart attempt. -/
theorem c5_zero_max_restarts_not_unlimited :
    cZeroMax.ocppMaxRestarts = 3 ∧
    c5s4.restartCount = 3 ∧
    c5s4.mismatchStart = some 1261 ∧
    c5s4.lastRestart = some 1261 ∧
    mismatchConj (c5tickAt 1861) = true ∧
    cZeroMax.ocppMismatchSeconds ≤ (1861 : Int) - 1261 ∧
    cZeroMax.ocppRestartCooldown ≤ (1861 : Int) - 1261 ∧
    (tickFx cZeroMax (c5tickAt 1861) c5s4).restartAttempted = false := by decide

/-- C6: on a tick whose eligible restart attempt fails (stop or start
failed, direct restart failed, and the reboot fall-back failed too), the
failure detail is recorded in the heal error field, the restart count,
window start and restart throttle are unchanged, and nothing else runs
this tick: no escalation reboot, no safety-net reboot, and the safety
net's window fields are untouched. -/
theorem c6_failed_attempt_bookkeeping (c : Settings) (i : TickInput) (s : BridgeState)
    (t0 : Int)
    (hauto : c.autoRestartOCPP = true)
    (hconj : mismatchConj i = true)
    (hstart : s.mismatchStart = some t0)
    (hth : c.ocppMismatchSeconds ≤ i.now - t0)
    (hcool : s.lastRestart = none ∨
      ∃ tr, s.lastRestart = some tr ∧ c.ocppRestartCooldown ≤ i.now - tr)
    (hcount : c.ocppMaxRestarts = 0 ∨ s.restartCount < c.ocppMaxRestarts)
    (herr : ¬(i.cmd.stopOk = true ∧ i.cmd.startOk = true) ∧
      i.cmd.restartOk = false ∧ i.cmd.rebootOk = false) :
    (tickFx c i s).restartAttempted = true ∧
    (tickFx c i s).attemptErr = some "reboot failed after restart error" ∧
    (tickState c i s).lastHealError = "reboot failed after restart error" ∧
    (tickState c i s).restartCount = s.restartCount ∧
    (tickState c i s).mismatchStart = some t0 ∧
    (tickState c i s).lastRestart = s.lastRestart ∧
    (tickState c i s).lastRestartAt = s.lastRestartAt ∧
    (tickFx c i s).escalationReboot = false ∧
    (tickFx c i s).netReboot = false ∧
    (tickState c i s).pilotErrorStart = s.pilotErrorStart ∧
    (tickState c i s).lastPilotErrorReboot = s.lastPilotErrorReboot := by
  have hpc := (mismatchConj_iff i).mp hconj
  have hsome : s.mismatchStart ≠ none := by rw [hstart]; simp
  have hd := detectorPhase_keep i.now s hpc hsome
  have hg1 : c.autoRestartOCPP = true ∧
      (detectorPhase i.now (pilotConnected i.wb)
        (ocppStatusIndicatesDisconnect (OCPPStatusCode i.now i.wb.slots)) s).mismatchActive = true ∧
      (detectorPhase i.now (pilotConnected i.wb)
        (ocppStatusIndicatesDisconnect (OCPPStatusCode i.now i.wb.slots)) s).mismatchStart ≠ none := by
    rw [hd]
    exact ⟨hauto, rfl, hsome⟩
  have hg2 : c.ocppMismatchSeconds ≤ i.now -
      ((detectorPhase i.now (pilotConnected i.wb)
        (ocppStatusIndicatesDisconnect (OCPPStatusCode i.now i.wb.slots)) s).mismatchStart.getD 0) ∧
      ((detectorPhase i.now (pilotConnected i.wb)
        (ocppStatusIndicatesDisconnect (OCPPStatusCode i.now i.wb.slots)) s).lastRestart = none ∨
        c.ocppRestartCooldown ≤ i.now -
          ((detectorPhase i.now (pilotConnected i.wb)
            (ocppStatusIndicatesDisconnect (OCPPStatusCode i.now i.wb.slots)) s).lastRestart.getD 0)) := by
    rw [hd]
    constructor
    · rw [hstart]
      simpa using hth
    · rcases hcool with h | ⟨tr, htr, hle⟩
      · exact Or.inl h
      · rw [htr]
        exact Or.inr (by simpa using hle)
  have hg3 : c.ocppMaxRestarts = 0 ∨
      (detectorPhase i.now (pilotConnected i.wb)
        (ocppStatusIndicatesDisconnect (OCPPStatusCode i.now i.wb.slots)) s).restartCount <
        c.ocppMaxRestarts := by
    rw [hd]
    rcases hcount with h | h
    · exact Or.inl h
    · exact Or.inr h
  have hr : restartCriticalServices i.cmd =
      ("reboot", "reboot failed after restart error", some "reboot failed after restart error") := by
    unfold restartCriticalServices
    rw [if_neg herr.1, herr.2.1, herr.2.2]
    simp
  have hh := healPhase_attempt_err c i.now i.cmd _ hg1 hg2 hg3 hr
  unfold tickFx tickState
  rw [tick_eq_of_heal_skip c i s _ hh rfl]
  refine ⟨rfl, rfl, rfl, ?_, ?_, ?_, ?_, rfl, rfl, ?_, ?_⟩
  · rw [hd]
  · rw [hd, hstart]
  · rw [hd]
  · rw [hd]
  · rw [hd]
  · rw [hd]

/-- C6 witness: at t = 61 of the run begun at t = 1, with every command
failing, the attempt runs, errors, and advances no bookkeeping. -/
theorem c6_failed_attempt_bookkeeping_witness :
    (tickFx cAuto ⟨61, wbDisc 177, cmdAllFail⟩ c3s1).restartAttempted = true ∧
    (tickFx cAuto ⟨61, wbDisc 177, cmdAllFail⟩ c3s1).attemptErr =
      some "reboot failed after restart error" ∧
    (tickState cAuto ⟨61, wbDisc 177, cmdAllFail⟩ c3s1).restartCount = c3s1.restartCount ∧
    (tickState cAuto ⟨61, wbDisc 177, cmdAllFail⟩ c3s1).mismatchStart = some 1 :=
  ⟨(c6_failed_attempt_bookkeeping cAuto ⟨61, wbDisc 177, cmdAllFail⟩ c3s1 1
      (by decide) (by decide) (by decide) (by decide) (Or.inl (by decide))
      (Or.inr (by decide)) ⟨by decide, by decide, by decide⟩).1,
    (c6_failed_attempt_bookkeeping cAuto ⟨61, wbDisc 177, cmdAllFail⟩ c3s1 1
      (by decide) (by decide) (by decide) (by decide) (Or.inl (by decide))
      (Or.inr (by decide)) ⟨by decide, by decide, by decide⟩).2.1,
    (c6_failed_attempt_bookkeeping cAuto ⟨61, wbDisc 177, cmdAllFail⟩ c3s1 1
      (by decide) (by decide) (by decide) (by decide) (Or.inl (by decide))
      (Or.inr (by decide)) ⟨by decide, by decide, by decide⟩).2.2.2.1,
    (c6_failed_attempt_bookkeeping cAuto ⟨61, wbDisc 177, cmdAllFail⟩ c3s1 1
      (by decide) (by decide) (by decide) (by decide) (Or.inl (by decide))
      (Or.inr (by decide)) ⟨by decide, by decide, by decide⟩).2.2.2.2.1⟩

/-- Pilot-error tick 1: fault code 14 observed at t = 0, window opens. -/
def c7s1 : BridgeState := tickState cPilot ⟨0, wbDisc 14, cmdAllOk⟩ BridgeState.init

/-- Pilot-error tick 2: fault cleared (pilot 177) at t = 60, but the
eligible restart attempt fails and ends the tick early. -/
def c7s2 : BridgeState := tickState cPilot ⟨60, wbDisc 177, cmdAllFail⟩ c7s1

/-- C7 counterexample: at t = 60 the fault code is no longer observed
(the pilot reports 177), yet because the failed restart attempt ends the
tick with `continue`, the safety net is skipped and the pilot-error
window stays open (`started_at` remains 0 instead of being reset),
refuting "resets the window immediately on any tick where the fault code
is no longer observed". -/
theorem c7_net_counterexample :
    cPilot.pilotErrorReboot = true ∧
    c7s1.pilotErrorStart = some 0 ∧
    ControlPilotCode (wbDisc 177) = 177 ∧
    (tickFx cPilot ⟨60, wbDisc 177, cmdAllFail⟩ c7s1).attemptErr ≠ none ∧
    c7s2.pilotErrorStart = some 0 := by decide

/-- The healing block never touches the safety net's fields. -/
lemma healKeeps_pilotFields (c : Settings) (now : Int) (cmd : CmdOutcomes)
    (s1 : BridgeState) :
    (healPhase c now cmd s1).st.pilotErrorStart = s1.pilotErrorStart ∧
    (healPhase c now cmd s1).st.lastPilotErrorReboot = s1.lastPilotErrorReboot := by
  unfold healPhase
  rcases hr : restartCriticalServices cmd with ⟨a, d, e⟩
  cases e <;> split_ifs <;> simp_all

/-- The healing block short-circuits the tick only on an attempt
error. -/
lemma healPhase_skip_imp_err (c : Settings) (now : Int) (cmd : CmdOutcomes)
    (s1 : BridgeState) :
    (healPhase c now cmd s1).skipRest = true →
      (healPhase c now cmd s1).attemptErr ≠ none := by
  unfold healPhase
  rcases hr : restartCriticalServices cmd with ⟨a, d, e⟩
  cases e <;> split_ifs <;> simp_all

/-- C7 amended: whenever the tick is not cut short by a failed restart
attempt (in particular always when mismatch healing is disabled), the
pilot-error net opens its window when fault 14 appears, fires exactly at
the configured sustained duration subject only to its own last-reboot
throttle (stamping that throttle and closing the window), holds the
window while the duration has not elapsed or its own throttle blocks,
and resets the window on any tick where the fault is not observed; its
firing decision depends only on its own two fields, never on the healing
controller's restart or full-reboot throttles. -/
theorem c7_pilot_net_behavior (c : Settings) (i : TickInput) (s : BridgeState) :
    (c.autoRestartOCPP = false → (tickFx c i s).attemptErr = none) ∧
    ((tickFx c i s).attemptErr = none → c.pilotErrorReboot = true →
      ((ControlPilotCode i.wb ≠ 14 →
        (tickState c i s).pilotErrorStart = none ∧ (tickFx c i s).netReboot = false) ∧
      (ControlPilotCode i.wb = 14 → s.pilotErrorStart = none → 0 < c.pilotErrorSeconds →
        (tickState c i s).pilotErrorStart = some i.now ∧ (tickFx c i s).netReboot = false) ∧
      (∀ t0, ControlPilotCode i.wb = 14 → s.pilotErrorStart = some t0 →
        c.pilotErrorSeconds ≤ i.now - t0 →
        (s.lastPilotErrorReboot = none ∨
          ∃ tp, s.lastPilotErrorReboot = some tp ∧ c.pilotErrorSeconds ≤ i.now - tp) →
        (tickFx c i s).netReboot = true ∧
        (tickState c i s).pilotErrorStart = none ∧
        (tickState c i s).lastPilotErrorReboot = some i.now) ∧
      (∀ t0 tp, ControlPilotCode i.wb = 14 → s.pilotErrorStart = some t0 →
        c.pilotErrorSeconds ≤ i.now - t0 →
        s.lastPilotErrorReboot = some tp → i.now - tp < c.pilotErrorSeconds →
        (tickFx c i s).netReboot = false ∧
        (tickState c i s).pilotErrorStart = some t0) ∧
      (∀ t0, ControlPilotCode i.wb = 14 → s.pilotErrorStart = some t0 →
        i.now - t0 < c.pilotErrorSeconds →
        (tickFx c i s).netReboot = false ∧
        (tickState c i s).pilotErrorStart = some t0))) ∧
    (∀ (s2 : BridgeState), s.pilotErrorStart = s2.pilotErrorStart →
      s.lastPilotErrorReboot = s2.lastPilotErrorReboot →
      (pilotNetPhase c i.now (ControlPilotCode i.wb) s).2 =
        (pilotNetPhase c i.now (ControlPilotCode i.wb) s2).2) := by
  refine ⟨?_, ?_, ?_⟩
  · intro hauto
    have hg1 : ¬(c.autoRestartOCPP = true ∧
        (detectorPhase i.now (pilotConnected i.wb)
          (ocppStatusIndicatesDisconnect (OCPPStatusCode i.now i.wb.slots)) s).mismatchActive = true ∧
        (detectorPhase i.now (pilotConnected i.wb)
          (ocppStatusIndicatesDisconnect (OCPPStatusCode i.now i.wb.slots)) s).mismatchStart ≠ none) := by
      rintro ⟨h, _, _⟩
      rw [hauto] at h
      exact Bool.noConfusion h
    unfold tickFx
    rw [tick_eq_of_heal_noskip c i s _ (healPhase_off c i.now i.cmd _ hg1) rfl]
    rfl
  · intro hNoErr hon
    set s1 := detectorPhase i.now (pilotConnected i.wb)
      (ocppStatusIndicatesDisconnect (OCPPStatusCode i.now i.wb.slots)) s with hs1
    by_cases hskip : (healPhase c i.now i.cmd s1).skipRest = true
    · exfalso
      apply healPhase_skip_imp_err c i.now i.cmd s1 hskip
      unfold tickFx at hNoErr
      rw [tick_eq_of_heal_skip c i s _ rfl hskip] at hNoErr
      exact hNoErr
    · have hskip2 : (healPhase c i.now i.cmd s1).skipRest = false := by
        revert hskip; cases (healPhase c i.now i.cmd s1).skipRest <;> simp
      have hP : (healPhase c i.now i.cmd s1).st.pilotErrorStart = s.pilotErrorStart :=
        (healKeeps_pilotFields c i.now i.cmd s1).1.trans (detectorPhase_fixed i.now s).2.2.1
      have hPR : (healPhase c i.now i.cmd s1).st.lastPilotErrorReboot =
          s.lastPilotErrorReboot :=
        (healKeeps_pilotFields c i.now i.cmd s1).2.trans (detectorPhase_fixed i.now s).2.2.2.1
      unfold tickFx tickState
      rw [tick_eq_of_heal_noskip c i s _ rfl hskip2]
      refine ⟨fun h14 => ?_, fun h14 hnone hpos => ?_, fun t0 h14 hsome hdur hthr => ?_,
        fun t0 tp h14 hsome hdur htp hlt => ?_, fun t0 h14 hsome hlt => ?_⟩
      · rw [pilotNetPhase_clear c i.now _ _ hon h14]
        exact ⟨rfl, rfl⟩
      · rw [pilotNetPhase_open c i.now _ _ hon h14 (hP.trans hnone) hpos]
        exact ⟨rfl, rfl⟩
      · have hthr2 : (healPhase c i.now i.cmd s1).st.lastPilotErrorReboot = none ∨
            c.pilotErrorSeconds ≤ i.now -
              ((healPhase c i.now i.cmd s1).st.lastPilotErrorReboot.getD 0) := by
          rcases hthr with h | ⟨tp, htp, hle⟩
          · exact Or.inl (hPR.trans h)
          · rw [hPR, htp]
            exact Or.inr (by simpa using hle)
        rw [pilotNetPhase_fire c i.now _ _ hon h14 (hP.trans hsome) hdur hthr2]
        exact ⟨rfl, rfl, rfl⟩
      · have hthr2 : ¬((healPhase c i.now i.cmd s1).st.lastPilotErrorReboot = none ∨
            c.pilotErrorSeconds ≤ i.now -
              ((healPhase c i.now i.cmd s1).st.lastPilotErrorReboot.getD 0)) := by
          rw [hPR, htp]
          rintro (h | h)
          · exact Option.noConfusion h
          · simp only [Option.getD_some] at h
            omega
        rw [pilotNetPhase_throttled c i.now _ _ hon h14 (hP.trans hsome) hdur hthr2]
        exact ⟨rfl, rfl⟩
      · rw [pilotNetPhase_waiting c i.now _ _ hon h14 (hP.trans hsome) hlt]
        exact ⟨rfl, rfl⟩
  · intro s2 h1 h2
    unfold pilotNetPhase
    rw [h1, h2]
    simp only [apply_ite Prod.snd]

/-- State with a pilot-error window open since t = 0 and no prior
safety-net reboot. -/
def c7fireState : BridgeState := { BridgeState.init with pilotErrorStart := some 0 }

/-- C7 witness: with the window open since t = 0, fault 14 still present
at t = 300 (the configured duration) and no heal attempt error, the net
fires, closes its window and stamps its own throttle. -/
theorem c7_pilot_net_behavior_witness :
    (tickFx cPilot ⟨300, wbDisc 14, cmdAllOk⟩ c7fireState).netReboot = true ∧
    (tickState cPilot ⟨300, wbDisc 14, cmdAllOk⟩ c7fireState).pilotErrorStart = none ∧
    (tickState cPilot ⟨300, wbDisc 14, cmdAllOk⟩ c7fireState).lastPilotErrorReboot =
      some 300 :=
  ((c7_pilot_net_behavior cPilot ⟨300, wbDisc 14, cmdAllOk⟩ c7fireState).2.1
      (by decide) (by decide)).2.2.1 0 (by decide) (by decide) (by decide)
    (Or.inl (by decide))

/-- A false Bool is not true. -/
lemma bool_false_not_true {b : Bool} (h : b = false) : ¬(b = true) := by
  rw [h]
  exact Bool.false_ne_true

/-- Negation of the exact-label test, component-wise. -/
lemma exactSessionLabel_false_iff (n : String) :
    exactSessionLabel n = false ↔
      (n ≠ "ready" ∧ n ≠ "finish" ∧ n ≠ "lock" ∧ n ≠ "waitunlock" ∧
        n ≠ "reserved" ∧ n ≠ "updating" ∧ n ≠ "unavailable" ∧
        n ≠ "psunconfig" ∧ n ≠ "error" ∧ n ≠ "unviable") := by
  unfold exactSessionLabel
  simp [not_or]

/-- C8 counterexample: the label "unconfigured" is not an exact match of
the classifier (the code's exact label is "psunconfig"), so it yields no
observation instead of the Unavailable code 8. -/
theorem c8_classifier_counterexample :
    normalizeSessionState "unconfigured" = "unconfigured" ∧
    ocppCodeFromSessionState "unconfigured" = none ∧
    ocppCodeFromSessionState "unconfigured" ≠ some 8 := by decide

/-- C8 amended: after case/space/underscore-insensitive normalization,
the exact terminal labels (ready→1; finish/lock/waitunlock→6;
reserved→7; updating/unavailable/psunconfig→8; error/unviable→9) take
precedence over the prefix rules (connected*→5; waiting*/mid*/queue*→2;
charging*/discharging*→3; paused*/scheduled*→5, in that order), any
label matching no rule yields no observation, and in particular
"Connected 5" → 5, "Finish" → 6 and "bogus-state" → none. -/
theorem c8_classifier_rules (state : String) :
    (normalizeSessionState state = "ready" → ocppCodeFromSessionState state = some 1) ∧
    (normalizeSessionState state = "finish" ∨ normalizeSessionState state = "lock" ∨
        normalizeSessionState state = "waitunlock" →
      ocppCodeFromSessionState state = some 6) ∧
    (normalizeSessionState state = "reserved" → ocppCodeFromSessionState state = some 7) ∧
    (normalizeSessionState state = "updating" ∨
        normalizeSessionState state = "unavailable" ∨
        normalizeSessionState state = "psunconfig" →
      ocppCodeFromSessionState state = some 8) ∧
    (normalizeSessionState state = "error" ∨ normalizeSessionState state = "unviable" →
      ocppCodeFromSessionState state = some 9) ∧
    (exactSessionLabel (normalizeSessionState state) = false →
      hasPrefixStr (normalizeSessionState state) "connected" = true →
      ocppCodeFromSessionState state = some 5) ∧
    (exactSessionLabel (normalizeSessionState state) = false →
      hasPrefixStr (normalizeSessionState state) "connected" = false →
      (hasPrefixStr (normalizeSessionState state) "waiting" = true ∨
        hasPrefixStr (normalizeSessionState state) "mid" = true ∨
        hasPrefixStr (normalizeSessionState state) "queue" = true) →
      ocppCodeFromSessionState state = some 2) ∧
    (exactSessionLabel (normalizeSessionState state) = false →
      hasPrefixStr (normalizeSessionState state) "connected" = false →
      hasPrefixStr (normalizeSessionState state) "waiting" = false →
      hasPrefixStr (normalizeSessionState state) "mid" = false →
      hasPrefixStr (normalizeSessionState state) "queue" = false →
      (hasPrefixStr (normalizeSessionState state) "charging" = true ∨
        hasPrefixStr (normalizeSessionState state) "discharging" = true) →
      ocppCodeFromSessionState state = some 3) ∧
    (exactSessionLabel (normalizeSessionState state) = false →
      hasPrefixStr (normalizeSessionState state) "connected" = false →
      hasPrefixStr (normalizeSessionState state) "waiting" = false →
      hasPrefixStr (normalizeSessionState state) "mid" = false →
      hasPrefixStr (normalizeSessionState state) "queue" = false →
      hasPrefixStr (normalizeSessionState state) "charging" = false →
      hasPrefixStr (normalizeSessionState state) "discharging" = false →
      (hasPrefixStr (normalizeSessionState state) "paused" = true ∨
        hasPrefixStr (normalizeSessionState state) "scheduled" = true) →
      ocppCodeFromSessionState state = some 5) ∧
    (exactSessionLabel (normalizeSessionState state) = false →
      hasPrefixStr (normalizeSessionState state) "connected" = false →
      hasPrefixStr (normalizeSessionState state) "waiting" = false →
      hasPrefixStr (normalizeSessionState state) "mid" = false →
      hasPrefixStr (normalizeSessionState state) "queue" = false →
      hasPrefixStr (normalizeSessionState state) "charging" = false →
      hasPrefixStr (normalizeSessionState state) "discharging" = false →
      hasPrefixStr (normalizeSessionState state) "paused" = false →
      hasPrefixStr (normalizeSessionState state) "scheduled" = false →
      ocppCodeFromSessionState state = none) ∧
    ocppCodeFromSessionState "Connected 5" = some 5 ∧
    ocppCodeFromSessionState "Finish" = some 6 ∧
    ocppCodeFromSessionState "bogus-state" = none := by
  refine ⟨?_, ?_, ?_, ?_, ?_, ?_, ?_, ?_, ?_, ?_, by decide, by decide, by decide⟩
  · intro h
    simp only [ocppCodeFromSessionState]
    rw [h]
    decide
  · rintro (h | h | h) <;>
      · simp only [ocppCodeFromSessionState]
        rw [h]
        decide
  · intro h
    simp only [ocppCodeFromSessionState]
    rw [h]
    decide
  · rintro (h | h | h) <;>
      · simp only [ocppCodeFromSessionState]
        rw [h]
        decide
  · rintro (h | h) <;>
      · simp only [ocppCodeFromSessionState]
        rw [h]
        decide
  all_goals
    intro hex
    obtain ⟨h1, h2, h3, h4, h5, h6, h7, h8, h9, h10⟩ :=
      (exactSessionLabel_false_iff _).mp hex
    simp only [ocppCodeFromSessionState]
    rw [if_neg h1,
      if_neg (fun h => h.elim h2 (fun hh => hh.elim h3 h4)),
      if_neg h5,
      if_neg (fun h => h.elim h6 (fun hh => hh.elim h7 h8)),
      if_neg (fun h => h.elim h9 h10)]
  · intro hconn
    rw [if_pos hconn]
  · intro hconn hwmq
    rw [if_neg (bool_false_not_true hconn), if_pos hwmq]
  · intro hconn hw hm hq hcd
    rw [if_neg (bool_false_not_true hconn),
      if_neg (fun h => h.elim (bool_false_not_true hw) (fun hh =>
        hh.elim (bool_false_not_true hm) (bool_false_not_true hq))),
      if_pos hcd]
  · intro hconn hw hm hq hc hd hps
    rw [if_neg (bool_false_not_true hconn),
      if_neg (fun h => h.elim (bool_false_not_true hw) (fun hh =>
        hh.elim (bool_false_not_true hm) (bool_false_not_true hq))),
      if_neg (fun h => h.elim (bool_false_not_true hc) (bool_false_not_true hd)),
      if_pos hps]
  · intro hconn hw hm hq hc hd hp hs
    rw [if_neg (bool_false_not_true hconn),
      if_neg (fun h => h.elim (bool_false_not_true hw) (fun hh =>
        hh.elim (bool_false_not_true hm) (bool_false_not_true hq))),
      if_neg (fun h => h.elim (bool_false_not_true hc) (bool_false_not_true hd)),
      if_neg (fun h => h.elim (bool_false_not_true hp) (bool_false_not_true hs))]

/-- C8 witness: "Connected 5" normalizes to a non-exact label with the
"connected" prefix and classifies to the SuspendedEV code 5. -/
theorem c8_classifier_rules_witness :
    exactSessionLabel (normalizeSessionState "Connected 5") = false ∧
    hasPrefixStr (normalizeSessionState "Connected 5") "connected" = true ∧
    ocppCodeFromSessionState "Connected 5" = some 5 :=
  ⟨by decide, by decide,
    (c8_classifier_rules "Connected 5").2.2.2.2.2.1 (by decide) (by decide)⟩

/-- Snapshot with no telemetry yet, legacy charger status 1 (connected)
and legacy control pilot 193 (a charging code). -/
def c9wb : WallboxState := ⟨false, 0, 193, 1, OCPPSlots.init⟩

/-- C9 counterexample: the spec's formula "cable connected AND (telemetry
charging OR legacy fallback agrees)" is true on a snapshot without any
telemetry (legacy data shows a connected, charging pilot), but the code's
pilot-connected input is false there: the code's leading conjunct is the
has-telemetry flag, not cable connection. -/
theorem c9_pilot_connected_counterexample :
    CableConnected c9wb = 1 ∧
    isTelemetryCharging c9wb.legacyControlPilot = true ∧
    specWordsPilotConnected c9wb = true ∧
    pilotConnected c9wb = false ∧
    pilotConnected c9wb ≠ specWordsPilotConnected c9wb := by decide

/-- C9 amended: the pilot-connected input equals: at least one telemetry
sample has been processed AND (the telemetry cable-connected predicate
holds on the non-zero telemetry pilot value OR the effective control
pilot code — the telemetry value, falling back to the legacy value when
the telemetry pilot is 0 — is a charging code). -/
theorem c9_pilot_connected_formula (w : WallboxState) :
    pilotConnected w = true ↔
      (w.hasTelemetry = true ∧
        ((w.telControlPilot ≠ 0 ∧ isTelemetryCableConnected w.telControlPilot = true) ∨
          isTelemetryCharging
            (if w.telControlPilot ≠ 0 then w.telControlPilot
              else w.legacyControlPilot) = true)) := by
  unfold pilotConnected CableConnected IsChargingPilot ControlPilotCode
  rcases hT : w.hasTelemetry with _ | _
  · simp [hT]
  · simp only [hT, if_true, true_and]
    by_cases hz : w.telControlPilot ≠ 0
    · by_cases hc : isTelemetryCableConnected w.telControlPilot = true
      · simp [hz, hc]
      · simp [hz, hc]
    · simp only [hz, if_neg, if_false]
      push_neg at hz
      simp [hz]

/-- C10 counterexample: a negative raw telemetry status value (one
telemetry event carrying -1 for the OCPP status sensor) flows through
the resolver unguarded when both cached slots are absent, so the
resolver does return a negative code, refuting "can never return a
negative status code". -/
theorem c10_negative_raw_counterexample :
    OCPPStatusCode 0 (setRawOCPPStatus (-1) OCPPSlots.init) = -1 ∧
    OCPPStatusCode 0 (setRawOCPPStatus (-1) OCPPSlots.init) < 0 := by decide

/-- C10 amended: the cached slots are initialised to the -1 sentinel and
the raw field to 0; the freshness getters return nothing for any
negative cached code regardless of its timestamp, so at startup the
resolver returns the raw field (0); journal and session observations
always carry non-negative codes; and the resolver's result is negative
only when the raw telemetry status field itself is — the -1 sentinels
can never leak. -/
theorem c10_sentinel_never_leaks :
    (OCPPSlots.init.journalCode = -1 ∧ OCPPSlots.init.telemetryCode = -1 ∧
      OCPPSlots.init.rawOCPPStatus = 0) ∧
    (∀ (now : Int) (st : OCPPSlots), st.journalCode < 0 →
      getJournalOCPPStatus now st = none) ∧
    (∀ (now : Int) (st : OCPPSlots), st.telemetryCode < 0 →
      getTelemetryOCPPStatus now st = none) ∧
    (∀ now : Int, OCPPStatusCode now OCPPSlots.init = 0) ∧
    (∀ (s : String) (code : Int), LookupOCPPStatusCode s = some code → 0 ≤ code) ∧
    (∀ (lbl : String) (code : Int), ocppCodeFromSessionState lbl = some code → 0 ≤ code) ∧
    (∀ (now : Int) (st : OCPPSlots), 0 ≤ st.rawOCPPStatus →
      0 ≤ OCPPStatusCode now st) := by
  refine ⟨⟨rfl, rfl, rfl⟩, ?_, ?_, ?_, ?_, ?_, ?_⟩
  · intro now st h
    unfold getJournalOCPPStatus
    rw [if_neg]
    rintro ⟨h2, _⟩
    omega
  · intro now st h
    unfold getTelemetryOCPPStatus
    rw [if_neg]
    rintro ⟨h2, _⟩
    omega
  · intro now
    unfold OCPPStatusCode getJournalOCPPStatus getTelemetryOCPPStatus
    rw [if_neg (by rintro ⟨h, _⟩; revert h; decide),
      if_neg (by rintro ⟨h, _⟩; revert h; decide)]
    rfl
  · intro s code h
    unfold LookupOCPPStatusCode ocppStatusCodeFromString at h
    split_ifs at h <;> simp_all <;> omega
  · intro lbl code h
    simp only [ocppCodeFromSessionState] at h
    split_ifs at h <;> simp_all <;> omega
  · intro now st h
    rcases resolverCases now st with ⟨hc, _, he⟩ | ⟨_, ⟨hc, _⟩, he⟩ | ⟨_, _, he⟩ <;>
      rw [he]
    · exact hc
    · exact hc
    · exact h

/-- C10 witness: a journal slot holding the -1 sentinel is reported
absent even with a fresh timestamp, and a non-negative raw field keeps
the resolver's result non-negative. -/
theorem c10_sentinel_never_leaks_witness :
    getJournalOCPPStatus 5 OCPPSlots.init = none ∧
    (0 : Int) ≤ OCPPStatusCode 5 OCPPSlots.init :=
  ⟨(c10_sentinel_never_leaks).2.1 5 OCPPSlots.init (by decide),
    (c10_sentinel_never_leaks).2.2.2.2.2.2 5 OCPPSlots.init (by decide)⟩
